import Mathlib

set_option maxRecDepth 100000

/-!
Verification development for the Uber Eats order tracker (`app.js`).

The JavaScript source is shallowly embedded: pure helpers become Lean
functions over `String`/`List Char`, the Cheerio DOM becomes an inductive
`Node` tree, SQLite rows and the process-local `Map`s become association
lists inside a `World` record, and the polling cycle `runOnceAndUpdate`
becomes a pure state-transition function.  JavaScript truthiness of
strings (null/"" falsy) is modelled explicitly; timestamps are integers
(epoch milliseconds) alongside their ISO rendering where the code embeds
them into message payloads.  `Char.toLower` is ASCII, matching the ASCII
texts the scraper's regexes target.
-/

/- ───────────────────────── string utilities ───────────────────────── -/

/-- JS `\s` whitespace class (ASCII part; unicode spaces are not used by the
tracked page texts). -/
def isWsC (c : Char) : Bool :=
  c = ' ' || c = '\t' || c = '\n' || c = '\r' || c = '\x0b' || c = '\x0c'

/-- JS `\w` word character, used for `\b` word boundaries. -/
def isWordC (c : Char) : Bool :=
  c.isAlphanum || c = '_'

/-- JS `String.prototype.toLowerCase` (ASCII). -/
def lowerStr (s : String) : String :=
  ⟨s.data.map Char.toLower⟩

/-- `needle.isPrefixOf hay`, case sensitive. -/
def prefixAt : List Char → List Char → Bool
  | [], _ => true
  | _ :: _, [] => false
  | a :: as, b :: bs => (a == b) && prefixAt as bs

/-- Case-insensitive prefix test. -/
def prefixAtCI : List Char → List Char → Bool
  | [], _ => true
  | _ :: _, [] => false
  | a :: as, b :: bs => (a.toLower == b.toLower) && prefixAtCI as bs

/-- Does `n` occur as a contiguous run inside `h`? -/
def hasSub (n : List Char) : List Char → Bool
  | [] => n.isEmpty
  | b :: bs => prefixAt n (b :: bs) || hasSub n bs

/-- JS `/needle/.test(hay)` for a literal needle. -/
def strContains (hay needle : String) : Bool :=
  hasSub needle.data hay.data

/-- JS `/needle/i.test(hay)` for a literal needle. -/
def strContainsCI (hay needle : String) : Bool :=
  hasSub (needle.data.map Char.toLower) (hay.data.map Char.toLower)

/-- Match helper for the regex fragment `p .* q` (JS `.` excludes line
terminators): after the current position, is `q` reachable without
crossing a newline?  Used only by the `heading .* way` classifier rule. -/
def seekNoNl (q : List Char) : List Char → Bool
  | [] => q.isEmpty
  | b :: bs => prefixAt q (b :: bs) || (!(b = '\n' || b = '\r') && seekNoNl q bs)

/-- `p`, then any non-newline gap, then `q`, somewhere inside the text. -/
def gapSub (p q : List Char) : List Char → Bool
  | [] => false
  | b :: bs => (prefixAt p (b :: bs) && seekNoNl q ((b :: bs).drop p.length)) || gapSub p q bs

/- ───────────────────────── phase classifier ───────────────────────── -/

/-- Coarse delivery phase; in the source these are the strings
`'PREPARING' | 'HEADING' | 'ALMOST_HERE' | 'DELIVERED'`. -/
inductive Phase where
  | PREPARING
  | HEADING
  | ALMOST_HERE
  | DELIVERED
deriving DecidableEq, Repr

/-- Rule 1 of `classifyPhase`:
`/received|preparing|confirm(ed|ing)?|waiting for the store|getting (the )?order ready/`
(`confirm(ed|ing)?` matches whenever `confirm` occurs). -/
def rulePreparing (s : String) : Bool :=
  strContains s "received" || strContains s "preparing" || strContains s "confirm" ||
  strContains s "waiting for the store" ||
  strContains s "getting the order ready" || strContains s "getting order ready"

/-- Rule 2: `/(heading .* way|on the way|head(?:ing)? your way)/i`. -/
def ruleHeading (s : String) : Bool :=
  gapSub "heading ".data " way".data s.data || strContains s "on the way" ||
  strContains s "head your way" || strContains s "heading your way"

/-- Rule 3: `/(almost there|nearby|here|arriving)/i`. -/
def ruleAlmostHere (s : String) : Bool :=
  strContains s "almost there" || strContains s "nearby" ||
  strContains s "here" || strContains s "arriving"

/-- Rule 4: `/(delivered|order arrived)/i`. -/
def ruleDelivered (s : String) : Bool :=
  strContains s "delivered" || strContains s "order arrived"

/-- `classifyPhase(statusLineRaw)`: ordered first-match-wins rules over the
lower-cased headline. -/
def classifyPhase (statusLineRaw : String) : Option Phase :=
  let s := lowerStr statusLineRaw
  if rulePreparing s then some .PREPARING
  else if ruleHeading s then some .HEADING
  else if ruleAlmostHere s then some .ALMOST_HERE
  else if ruleDelivered s then some .DELIVERED
  else none

/- ─────────────────── word-boundary and regex matchers ─────────────────── -/

/-- After a candidate match of `n`, is there a `\b` word boundary?  All
needles used with this helper end in a word character, so the position
after the match must be end-of-string or a non-word character. -/
def afterBoundaryOk (n : List Char) (cs : List Char) : Bool :=
  match cs.drop n.length with
  | [] => true
  | d :: _ => !isWordC d

/-- Scan for a `\b(n₁|n₂|...)\b` match (case-insensitive; the needles start
and end with word characters).  `prevW` records whether the character just
before the current position is a word character.  Returns the alternative
that matched, in alternation order at the leftmost matching position. -/
def boundedFind (ns : List String) : Bool → List Char → Option String
  | _, [] => none
  | prevW, c :: rest =>
    match ns.find? (fun n =>
        !prevW && prefixAtCI n.data (c :: rest) && afterBoundaryOk n.data (c :: rest)) with
    | some n => some n
    | none => boundedFind ns (isWordC c) rest

/-- `/\b(delivered|order arrived)\b/i.test(statusText)`. -/
def deliveredStatusTest (statusText : String) : Bool :=
  (boundedFind ["delivered", "order arrived"] false statusText.data).isSome

/-- The `OPTION_RX` keywords `\b(standard|priority|rush|asap|express|economy|saver)\b`. -/
def optionKeywords : List String :=
  ["standard", "priority", "rush", "asap", "express", "economy", "saver"]

/-- JS `m[1].charAt(0).toUpperCase() + m[1].slice(1).toLowerCase()` applied
to a canonical lower-case keyword. -/
def capFirst (s : String) : String :=
  match s.data with
  | [] => ""
  | c :: r => ⟨c.toUpper :: r⟩

/-- Leftmost word-bounded `OPTION_RX` keyword in `t`, already normalised the
way the source normalises `m[1]`. -/
def optionFind (t : String) : Option String :=
  (boundedFind optionKeywords false t.data).map capFirst

/-- Length of the leading run satisfying `p`. -/
def runLen (p : Char → Bool) (cs : List Char) : Nat :=
  (cs.takeWhile p).length

/-- Leading JS-whitespace run length. -/
def wsRunLen (cs : List Char) : Nat :=
  runLen isWsC cs

/-- Strip leading and trailing JS whitespace (JS `String.prototype.trim`). -/
def trimChars (cs : List Char) : List Char :=
  ((cs.dropWhile isWsC).reverse.dropWhile isWsC).reverse

def trimStr (s : String) : String :=
  ⟨trimChars s.data⟩

/- `TYPE_RX` =
`/(leave (?:it )?at (?:my )?door|hand it to me|meet (?:at )?(?:the |my )?door|meet outside|deliver (?:to|at) (?:my )?door)/i`.
Matching is compositional: a literal consumes its length, `(?:p )?` is
greedy (with-`p` first, then without), alternations try alternatives in
source order.  Each combinator returns the number of characters consumed. -/

/-- Case-insensitive literal: consume `p` or fail. -/
def litCI (p : String) (k : List Char → Option Nat) (cs : List Char) : Option Nat :=
  if prefixAtCI p.data cs then (k (cs.drop p.data.length)).map (· + p.data.length) else none

/-- Greedy optional literal `(?:p )?`: try consuming `p` first. -/
def optLitCI (p : String) (k : List Char → Option Nat) (cs : List Char) : Option Nat :=
  match litCI p k cs with
  | some n => some n
  | none => k cs

/-- Ordered alternation over optional literals, e.g. `(?:the |my )?`. -/
def optAltCI (ps : List String) (k : List Char → Option Nat) (cs : List Char) : Option Nat :=
  match ps with
  | [] => k cs
  | p :: rest =>
    match litCI p k cs with
    | some n => some n
    | none => optAltCI rest k cs

/-- End of a pattern: zero further characters. -/
def matchEnd (_ : List Char) : Option Nat := some 0

/-- `TYPE_RX` at the current position: the five alternatives in source order. -/
def typeLenAt (cs : List Char) : Option Nat :=
  match litCI "leave " (optLitCI "it " (litCI "at " (optLitCI "my " (litCI "door" matchEnd)))) cs with
  | some n => some n
  | none =>
  match litCI "hand it to me" matchEnd cs with
  | some n => some n
  | none =>
  match litCI "meet " (optLitCI "at " (optAltCI ["the ", "my "] (litCI "door" matchEnd))) cs with
  | some n => some n
  | none =>
  match litCI "meet outside" matchEnd cs with
  | some n => some n
  | none =>
  match litCI "deliver " (optAltCI ["to", "at"] (litCI " " (optLitCI "my " (litCI "door" matchEnd)))) cs with
  | some n => some n
  | none => none

/-- Leftmost `TYPE_RX` match, returned as the matched slice (JS `m[0]`). -/
def typeScan : List Char → Option (List Char)
  | [] => none
  | c :: rest =>
    match typeLenAt (c :: rest) with
    | some n => some ((c :: rest).take n)
    | none => typeScan rest

def typeFind (t : String) : Option String :=
  (typeScan t.data).map List.asString

def typeTest (t : String) : Bool :=
  (typeScan t.data).isSome

/- `ADDR_RX` =
`/\d{2,6}[^,\n]+,\s*[A-Za-z .'-]+,\s*[A-Z]{2}\s+\d{5}(?:-\d{4})?(?:,\s*(US|USA))?/i`.
Because `[^,\n]` and `[A-Za-z .'-]` both exclude `,`, the two commas are
forced, so greedy matching needs no general backtracking: each run extends
maximally to the next comma.  With `/i`, `[A-Z]{2}` is any two letters and
`(US|USA)` tries `US` first (so the trailing `A` of `USA` is never taken). -/

/-- `[A-Za-z .'-]` (the city-name class). -/
def addrNameClassC (c : Char) : Bool :=
  c.isAlpha || c = ' ' || c = '.' || c = '\'' || c = '-'

/-- `ADDR_RX` at the current position, returning the matched length. -/
def addrLenAt (cs : List Char) : Option Nat :=
  let d := runLen Char.isDigit cs
  let L := runLen (fun c => !(c = ',' || c = '\n')) cs
  -- `\d{2,6}` then at least one `[^,\n]` before the first comma
  if d < 2 || L < 3 then none
  else
    match cs.drop L with
    | ',' :: r1 =>
      let w1 := wsRunLen r1
      let r2 := r1.drop w1
      let m := runLen addrNameClassC r2
      if m = 0 then none
      else
        match r2.drop m with
        | ',' :: r3 =>
          let w2 := wsRunLen r3
          match r3.drop w2 with
          | a :: b :: r5 =>
            if a.isAlpha && b.isAlpha then
              let w3 := wsRunLen r5
              if w3 = 0 then none
              else
                let r6 := r5.drop w3
                if runLen Char.isDigit r6 < 5 then none
                else
                  let base := L + 1 + w1 + m + 1 + w2 + 2 + w3 + 5
                  let r7 := r6.drop 5
                  let (ext1, r8) :=
                    match r7 with
                    | '-' :: t => if 4 ≤ runLen Char.isDigit t then (5, t.drop 4) else (0, r7)
                    | _ => (0, r7)
                  let ext2 :=
                    match r8 with
                    | ',' :: t =>
                      let w := wsRunLen t
                      if prefixAtCI "us".data (t.drop w) then 1 + w + 2 else 0
                    | _ => 0
                  some (base + ext1 + ext2)
            else none
          | _ => none
        | _ => none
    | _ => none

/-- Leftmost `ADDR_RX` match as a slice (JS `m[0]`). -/
def addrScan : List Char → Option (List Char)
  | [] => none
  | c :: rest =>
    match addrLenAt (c :: rest) with
    | some n => some ((c :: rest).take n)
    | none => addrScan rest

def addrFind (t : String) : Option String :=
  (addrScan t.data).map List.asString

/-- `ADDR_RX.test(t)`. -/
def addrTest (t : String) : Bool :=
  (addrScan t.data).isSome

/- Unit regex `/(apt|apartment|suite|ste|floor|fl|unit|#)\s*[:\-]?\s*([A-Za-z0-9\- .#]+)$/i`
(anchored at the end of the string) and hint regex
`/^(apt|apartment|suite|ste|floor|fl|unit|#)\b/i`. -/

def unitLabels : List String :=
  ["apt", "apartment", "suite", "ste", "floor", "fl", "unit", "#"]

/-- `[A-Za-z0-9\- .#]`, the unit value class. -/
def unitClassC (c : Char) : Bool :=
  c.isAlphanum || c = '-' || c = ' ' || c = '.' || c = '#'

/-- `([A-Za-z0-9\- .#]+)$`: the rest of the string, if nonempty and in-class. -/
def unitValChk (cs : List Char) : Option (List Char) :=
  if cs.isEmpty then none
  else if cs.all unitClassC then some cs else none

/-- `\s*[:\-]?\s*([A-Za-z0-9\- .#]+)$` after the label (greedy separator
first; backtracking into a trailing whitespace run is not modelled, which
only matters for labels followed by nothing but whitespace). -/
def unitValueAt (cs : List Char) : Option (List Char) :=
  let r1 := cs.drop (wsRunLen cs)
  match r1 with
  | c :: t =>
    if c = ':' || c = '-' then
      match unitValChk (t.drop (wsRunLen t)) with
      | some v => some v
      | none => unitValChk r1
    else unitValChk r1
  | [] => none

/-- The unit regex at the current position: label alternatives in source
order (backtracking into the next alternative when the value part fails,
as the JS engine does), returning the original-case label slice and the
captured value. -/
def unitMatchAt (cs : List Char) : Option (List Char × List Char) :=
  unitLabels.findSome? (fun lab =>
    if prefixAtCI lab.data cs then
      (unitValueAt (cs.drop lab.data.length)).map (fun v => (cs.take lab.data.length, v))
    else none)

/-- Leftmost match of the unit regex over a raw container text, already
formatted as the source formats it:
`label.charAt(0).toUpperCase() + label.slice(1)` + `': '` + `value.trim()`. -/
def unitFromRaw0 : List Char → Option String
  | [] => none
  | c :: rest =>
    match unitMatchAt (c :: rest) with
    | some (lab, v) =>
      match lab with
      | [] => none
      | l0 :: lrest => some (⟨l0.toUpper :: lrest⟩ ++ ": " ++ ⟨trimChars v⟩)
    | none => unitFromRaw0 rest

def unitFromRaw (raw : String) : Option String :=
  unitFromRaw0 raw.data

/-- `/^(apt|apartment|suite|ste|floor|fl|unit|#)\b/i.test(t)`: a label at
the start of the string followed by a word boundary. -/
def unitHintTest (t : String) : Bool :=
  unitLabels.any (fun lab =>
    prefixAtCI lab.data t.data &&
    (match lab.data.getLast?, t.data.drop lab.data.length with
     | some lc, [] => isWordC lc
     | some lc, d :: _ => isWordC lc != isWordC d
     | none, _ => false))

/- Name regex `/(?:preparing|picking up|heading)\s+(.+?)['’]s\s+(?:order|way)/i`:
a prefix word, at least one whitespace (greedy, with backtracking), a lazy
nonempty capture of non-newline characters, an apostrophe + `s`, more
whitespace, then `order` or `way`. -/

def namePrefixWords : List String :=
  ["preparing", "picking up", "heading"]

/-- `['’]s\s+(?:order|way)` at the current position. -/
def nameSuffixOk (cs : List Char) : Bool :=
  match cs with
  | c :: s :: rest =>
    (c = '\'' || c = '’') && s.toLower = 's' &&
    (let w := wsRunLen rest
     w ≠ 0 &&
     (prefixAtCI "order".data (rest.drop w) || prefixAtCI "way".data (rest.drop w)))
  | _ => false

/-- Lazy capture: the shortest nonempty non-newline run after which the
suffix matches.  `acc` is the reversed capture so far (nonempty). -/
def captureSearch : List Char → List Char → Option (List Char)
  | _, [] => none
  | acc, c :: rest =>
    if nameSuffixOk (c :: rest) then some acc.reverse
    else if c = '\n' || c = '\r' then none
    else captureSearch (c :: acc) rest

/-- Start the lazy capture with its first (non-newline) character. -/
def nameAfterWs : List Char → Option (List Char)
  | [] => none
  | c :: rest => if c = '\n' || c = '\r' then none else captureSearch [c] rest

/-- `\s+` backtracking: try the greedy run length `w` first, then shorter
runs (shifting whitespace into the capture). -/
def nameTryWs : Nat → List Char → Option (List Char)
  | 0, _ => none
  | w + 1, r =>
    match nameAfterWs (r.drop (w + 1)) with
    | some v => some v
    | none => nameTryWs w r

/-- The name regex at one position: prefix alternatives in source order. -/
def nameAtPos (cs : List Char) : Option (List Char) :=
  namePrefixWords.findSome? (fun p =>
    if prefixAtCI p.data cs then
      let r := cs.drop p.data.length
      nameTryWs (wsRunLen r) r
    else none)

/-- Leftmost match; the returned capture is JS `m[1]`. -/
def nameScan : List Char → Option (List Char)
  | [] => none
  | c :: rest =>
    match nameAtPos (c :: rest) with
    | some v => some v
    | none => nameScan rest

def nameCapture (s : String) : Option String :=
  (nameScan s.data).map List.asString

/- ───────────────────────── Cheerio DOM model ───────────────────────── -/

/- A rendered DOM node: either a text node or an element carrying the only
attributes the scraper inspects (`data-testid` and the class list).  `Node`
and `NodeList` are mutual so that recursion over the tree is structural
(and therefore evaluates inside the kernel). -/
mutual
inductive Node where
  | text (s : String)
  | elem (tag : String) (testid : Option String) (classes : List String) (children : NodeList)
inductive NodeList where
  | nil
  | cons (n : Node) (ns : NodeList)
end

def NodeList.ofList : List Node → NodeList
  | [] => .nil
  | n :: ns => .cons n (NodeList.ofList ns)

def NodeList.toList : NodeList → List Node
  | .nil => []
  | .cons n ns => n :: ns.toList

/-- Element constructor taking a plain list of children. -/
def Node.el (tag : String) (testid : Option String) (classes : List String)
    (children : List Node) : Node :=
  .elem tag testid classes (.ofList children)

def Node.tagOf : Node → String
  | .text _ => ""
  | .elem t _ _ _ => t

def Node.testidOf : Node → Option String
  | .text _ => none
  | .elem _ i _ _ => i

def Node.classesOf : Node → List String
  | .text _ => []
  | .elem _ _ cls _ => cls

def Node.childrenOf : Node → List Node
  | .text _ => []
  | .elem _ _ _ cs => cs.toList

def Node.isElem : Node → Bool
  | .text _ => false
  | .elem _ _ _ _ => true

mutual
/-- Concatenated text content (Cheerio `.text()`), before whitespace
collapsing. -/
def nodeText : Node → String
  | .text s => s
  | .elem _ _ _ cs => nodesText cs
def nodesText : NodeList → String
  | .nil => ""
  | .cons n ns => nodeText n ++ nodesText ns
end

mutual
/-- The node itself (when an element) followed by all element descendants,
in document (preorder) order — the order Cheerio selections use. -/
def elemsOf : Node → List Node
  | .text _ => []
  | .elem t i cls cs => .elem t i cls cs :: elemsOfNL cs
def elemsOfNL : NodeList → List Node
  | .nil => []
  | .cons n ns => elemsOf n ++ elemsOfNL ns
end

/-- Cheerio `el.find(sel)`: element descendants, excluding `el` itself. -/
def findElems (n : Node) : List Node :=
  match n with
  | .text _ => []
  | .elem _ _ _ cs => elemsOfNL cs

/-- Collapse every whitespace run to one space: JS `.replace(/\s+/g, ' ')`.
The flag says whether the previous character was whitespace (already
replaced by the single space). -/
def collapseWsGo : Bool → List Char → List Char
  | _, [] => []
  | prevWs, c :: rest =>
    if isWsC c then
      if prevWs then collapseWsGo true rest
      else ' ' :: collapseWsGo true rest
    else c :: collapseWsGo false rest

def collapseWs (cs : List Char) : List Char :=
  collapseWsGo false cs

/-- `extractText($, el)`: collapse whitespace, trim, empty becomes absent. -/
def extractText (n : Node) : Option String :=
  let t := trimChars (collapseWs (nodeText n).data)
  if t.isEmpty then none else some ⟨t⟩

/-- `$.root().text().replace(/\s+/g, ' ').trim()` (the scraper's `textAll`). -/
def textAllOf (doc : Node) : String :=
  ⟨trimChars (collapseWs (nodeText doc).data)⟩

/-- `$('[data-testid="tid"]').first()`. -/
def firstByTestid (doc : Node) (tid : String) : Option Node :=
  (elemsOf doc).find? (fun e => e.testidOf = some tid)

/-- `find('div')` restricted to leaf divs (`$(d).children().length === 0`:
no element children). -/
def leafDivs (n : Node) : List Node :=
  (findElems n).filter (fun d => d.tagOf = "div" && (d.childrenOf.filter Node.isElem).isEmpty)

/-- All divs below `n` (`el.find('div')`). -/
def divsOf (n : Node) : List Node :=
  (findElems n).filter (fun d => d.tagOf = "div")

/-- The collapsed texts of all elements of the document; a field value that
is (or is cut from) one of these strings was really extracted from the
markup. -/
def elementTexts (doc : Node) : List String :=
  (elemsOf doc).filterMap extractText

/- ───────────────────────── extraction engine ───────────────────────── -/

/-- One extraction pass (`scrapeFromHTML`'s return object; the session
pool's `requiresLogin` result is modelled separately at the cycle level). -/
structure Snapshot where
  statusText : String
  statusLine : Option String
  etaLine : Option String
  store : Option String
  name : Option String
  unit : Option String
  address : Option String
  delivery_type : Option String
  delivery_note_typed : Option String
  cart : List String
  delivered : Bool
deriving DecidableEq, Repr

/-- JS `a || b` where `a` is a nullable string (null and `''` are falsy). -/
def jsOr (a : Option String) (b : String) : String :=
  match a with
  | some s => if s.isEmpty then b else s
  | none => b

/-- JS template interpolation of a nullable string (`null` prints as
`"null"`). -/
def jsShow (a : Option String) : String :=
  a.getD "null"

/-- `LABEL_RX = /^(address|delivery option|delivery options)$/i`. -/
def labelTest (t : String) : Bool :=
  let l := lowerStr t
  l = "address" || l = "delivery option" || l = "delivery options"

/-- `OPTION_RX.test(t)`. -/
def optionTest (t : String) : Bool :=
  (boundedFind optionKeywords false t.data).isSome

/-- JS `.replace(/\s{2,}/g, ' ')`: collapse runs of two or more whitespace
characters into one space (a single whitespace character is left as is).
The flag says whether we are inside a run already replaced by a space. -/
def collapse2Go : Bool → List Char → List Char
  | _, [] => []
  | inRun, c :: rest =>
    if isWsC c then
      if inRun then collapse2Go true rest
      else
        match rest with
        | r :: _ =>
          if isWsC r then ' ' :: collapse2Go true rest
          else c :: collapse2Go false rest
        | [] => [c]
    else c :: collapse2Go false rest

def collapse2 (cs : List Char) : List Char :=
  collapse2Go false cs

/-- The per-container `scanType` fold: the first div text matching `TYPE_RX`
fixes the manner label (and skips the option check for that div); the first
`OPTION_RX` keyword in any other div fixes the option label. -/
def scanTypeDivs (texts : List String) : Option String × Option String :=
  texts.foldl
    (fun st t =>
      if st.1.isNone && typeTest t then (typeFind t, st.2)
      else if st.2.isNone && optionTest t then (st.1, optionFind t)
      else st)
    (none, none)

/-- `scanType(sel)` over a `data-testid` container. -/
def scanType (doc : Node) (tid : String) : Option String × Option String :=
  match firstByTestid doc tid with
  | none => (none, none)
  | some cont => scanTypeDivs ((divsOf cont).filterMap extractText)

/-- One cart line:
`(det ? `${name} — ${det}` : name)?.replace(/\s{2,}/g, ' ').trim()`, then
`if (line) cart.push(line)` — an empty line is dropped, and a null name
with a detail present renders as the literal string `null`. -/
def cartLine (nm : Option String) (det : String) : Option String :=
  let line :=
    if det.isEmpty then nm.map (fun s => trimStr ⟨collapse2 s.data⟩)
    else some (trimStr ⟨collapse2 (jsShow nm ++ " — " ++ det).data⟩)
  line.bind (fun l => if l.isEmpty then none else some l)

/-- `scrapeFromHTML(html)`. -/
def scrapeFromHTML (doc : Node) : Snapshot :=
  let textAll := textAllOf doc
  -- STATUS + ETA
  let stEta :=
    match firstByTestid doc "active-order-sticky-eta" with
    | none => (none, none, "Unknown status")
    | some sticky =>
      let lines := (divsOf sticky).filterMap extractText
      let sl := lines.head?
      let el := lines.find? (fun t => strContainsCI t "estimated")
      (sl, el, String.intercalate " " ([sl, el].filterMap id))
  let statusLine := stEta.1
  let etaLine := stEta.2.1
  let statusText := stEta.2.2
  -- STORE: "From <store>"
  let fromNodes :=
    (((elemsOf doc).filter (fun e =>
        e.tagOf = "div" || e.tagOf = "span" || e.tagOf = "p")).filterMap extractText).filter
      (fun t => prefixAt "From ".data t.data && t.data.length ≤ 80)
  let store := fromNodes.head?.map (fun t => trimStr ⟨t.data.drop 5⟩)
  -- NAME from status line
  let name := nameCapture (jsOr statusLine statusText)
  -- ADDRESS from container-0 only
  let address :=
    match firstByTestid doc "delivery-text-container-0" with
    | none => none
    | some c0 =>
      match ((leafDivs c0).filterMap extractText).find? addrTest with
      | some hit => some hit
      | none => (extractText c0).bind addrFind
  -- UNIT (apt/suite/floor)
  let c1? := firstByTestid doc "delivery-text-container-1"
  let unit :=
    match c1? with
    | none => none
    | some c1 =>
      match (extractText c1).bind unitFromRaw with
      | some u => some u
      | none => ((leafDivs c1).filterMap extractText).find? unitHintTest
  -- DELIVERY NOTE (only from container-1, scanning leaves backwards)
  let delivery_note_typed :=
    match c1? with
    | none => none
    | some c1 =>
      (((leafDivs c1).filterMap extractText).reverse).find? (fun t =>
        !labelTest t && !typeTest t && !optionTest t && !addrTest t && !unitHintTest t)
  -- DELIVERY TYPE from containers 1 and 2, with whole-page fallback
  let t1 := scanType doc "delivery-text-container-1"
  let t2 := scanType doc "delivery-text-container-2"
  let typeLbl := t1.1 <|> t2.1
  let optLbl := t1.2 <|> t2.2
  let joined := String.intercalate " • " ([typeLbl, optLbl].filterMap id)
  let delivery_type := if joined.isEmpty then typeFind textAll else some joined
  -- CART
  let cartItems :=
    (elemsOf doc).filter (fun e =>
      match e.testidOf with
      | some tid => strContains tid "order-summary-card-item"
      | none => false)
  let cart := cartItems.filterMap (fun item =>
    let nameDiv? := (findElems item).find? (fun d =>
      d.tagOf = "div" && ["bo", "bp", "bq", "br"].all (d.classesOf.contains ·))
    let nm := extractText (nameDiv?.getD item)
    let detDiv? := (findElems item).find? (fun d =>
      d.tagOf = "div" &&
      (["bo", "cn", "bq", "dq", "g6"].all (d.classesOf.contains ·) ||
       ["bo", "cn", "bq", "dq", "g7"].all (d.classesOf.contains ·)))
    let det := (detDiv?.bind extractText).getD ""
    cartLine nm det)
  -- Delivered?
  let delivered :=
    deliveredStatusTest statusText ||
    ((strContainsCI textAll "enjoy your order!" &&
      strContainsCI textAll "thanks for using uber eats.") ||
     (elemsOf doc).any (fun e => e.testidOf = some "back-to-restaurants-primary-action"))
  { statusText := statusText
    statusLine := statusLine
    etaLine := etaLine
    store := store
    name := name
    unit := unit
    address := address
    delivery_type := delivery_type
    delivery_note_typed := delivery_note_typed
    cart := cart.take 12
    delivered := delivered }

/-- A rich concrete order page used for witnesses. -/
def docRich : Node :=
  Node.el "body" none []
    [ Node.el "div" (some "active-order-sticky-eta") []
        [ Node.el "div" none [] [Node.text "Preparing Alice's order"],
          Node.el "div" none [] [Node.text "Estimated arrival 2:30 PM"] ],
      Node.el "span" none [] [Node.text "From Pizza Palace"],
      Node.el "div" (some "delivery-text-container-0") []
        [ Node.el "div" none []
            [Node.text "742 Evergreen Terrace, Springfield, IL 62704, US"] ],
      Node.el "div" (some "delivery-text-container-1") []
        [ Node.el "div" none [] [Node.text "Address"],
          Node.el "div" none [] [Node.text "Leave at door"],
          Node.el "div" none [] [Node.text "Apt 4B"],
          Node.el "div" none [] [Node.text "ring the bell twice"] ],
      Node.el "div" (some "delivery-text-container-2") []
        [ Node.el "div" none [] [Node.text "Priority delivery"] ],
      Node.el "div" (some "order-summary-card-item") []
        [ Node.el "div" none ["bo", "bp", "bq", "br"] [Node.text "Burger"],
          Node.el "div" none ["bo", "cn", "bq", "dq", "g6"] [Node.text "x2"] ] ]

/-- The empty page. -/
def docEmpty : Node :=
  Node.el "html" none [] []

/- ─────────────── sanitizer, embeds, payload fingerprint ─────────────── -/

/-- Drop everything from the first (case-insensitive) occurrence of the
needle to the end of the string:
`.replace(/This website uses third party advertising cookies[\s\S]*$/i, '')`. -/
def cutAtCI (phrase : List Char) : List Char → List Char
  | [] => []
  | c :: rest =>
    if prefixAtCI phrase (c :: rest) then [] else c :: cutAtCI phrase rest

/-- `sanitize(val, max)`: collapse whitespace, strip the cookie-notice
tail, trim; empty (or falsy input) becomes absent; overlong text is
truncated to `max - 1` characters plus an ellipsis. -/
def sanitize (max : Nat) (val : Option String) : Option String :=
  match val with
  | none => none
  | some v =>
    if v.isEmpty then none
    else
      let s :=
        trimChars
          (cutAtCI "this website uses third party advertising cookies".data
            (collapseWs v.data))
      if s.isEmpty then none
      else if max < s.length then some ⟨s.take (max - 1) ++ ['…']⟩
      else some ⟨s⟩

def sanitizeValue (v : Option String) : Option String :=
  sanitize 1024 v

/-- `THANK_BRAND` default. -/
def BRAND : String := "116 GAMER"

/-- `VOUCH_CHANNEL_ID` default. -/
def VOUCH_CHANNEL_ID : String := "1405983244096372839"

/-- `STORE_EMOJI` default. -/
def STORE_EMOJI : String := "🏬"

/-- `THEME` default (`'modern'`). -/
def THEME : String := "modern"

structure EmbedField where
  name : String
  value : String
  fieldInline : Bool
deriving DecidableEq, Repr

/-- The parts of a Discord embed that `JSON.stringify` serialises and the
code sets: colour, title, url, fields, footer text, the
`setTimestamp(new Date())` timestamp, and the optional thumbnail. -/
structure Embed where
  color : Nat
  title : String
  url : Option String
  fields : List EmbedField
  footer : String
  timestamp : String
  thumbnail : Option String
deriving DecidableEq, Repr

/-- The object passed to `msg.edit` / `channel.send`: content, one embed,
and one link button. -/
structure Payload where
  content : String
  embed : Embed
  buttonLabel : String
  buttonUrl : String
deriving DecidableEq, Repr

/-- JS `a || b` for plain strings. -/
def jsOrS (a b : String) : String :=
  if a.isEmpty then b else a

/-- `buildActiveEmbed(data, link, { serverIconURL })`, with the embed
timestamp (`new Date()` at build time) made explicit. -/
def buildActiveEmbed (data : Snapshot) (link : Option String)
    (serverIconURL : Option String) (ts : String) : Embed :=
  let top := sanitizeValue (some (jsOr data.statusLine (jsOrS data.statusText "Unknown status")))
  let eta :=
    match data.etaLine with
    | some e => if e.isEmpty then "" else "\n*" ++ jsShow (sanitizeValue (some e)) ++ "*"
    | none => ""
  let statusField : List EmbedField :=
    [⟨"⏳ Order Status", trimStr (jsShow top ++ eta), false⟩]
  let storeField :=
    match sanitizeValue data.store with
    | some s => [(⟨STORE_EMOJI ++ " Store", s, true⟩ : EmbedField)]
    | none => []
  let nameField :=
    match sanitizeValue data.name with
    | some s => [(⟨"👤 Name", s, true⟩ : EmbedField)]
    | none => []
  let typeField :=
    match sanitizeValue data.delivery_type with
    | some s => [(⟨"ℹ️ Delivery Type", s, true⟩ : EmbedField)]
    | none => []
  let noteField :=
    match sanitizeValue data.delivery_note_typed with
    | some s => [(⟨"📝 Delivery Note", s, true⟩ : EmbedField)]
    | none => []
  let addrField :=
    match data.address with
    | none => []
    | some a =>
      if a.isEmpty then []
      else
        let addrBlock :=
          match data.unit with
          | some u => if u.isEmpty then a else a ++ "\n" ++ u
          | none => a
        match sanitize 1000 (some addrBlock) with
        | some v => [(⟨"📍 Delivery Address", "```" ++ v ++ "```", false⟩ : EmbedField)]
        | none => []
  let cartField :=
    if data.cart.isEmpty then []
    else
      let items :=
        String.intercalate "\n"
          ((data.cart.filterMap (fun t => sanitize 110 (some t))).map (fun x => "• " ++ x))
      if items.isEmpty then []
      else
        [(⟨if THEME = "classic" then "🛒 Order Summary" else "🛒 Cart", items, false⟩ :
          EmbedField)]
  { color := 0x2ecc71
    title := "✅ Tracking Information"
    url := link
    fields := statusField ++ storeField ++ nameField ++ typeField ++ noteField ++
      addrField ++ cartField
    footer := "Updated by " ++ BRAND
    timestamp := ts
    thumbnail := serverIconURL }

/-- `buildDeliveredEmbed(data, link, { serverIconURL })`. -/
def buildDeliveredEmbed (link : Option String) (serverIconURL : Option String)
    (ts : String) : Embed :=
  let thanks :=
    "Thanks for ordering with **" ++ BRAND ++ "**! Hope you enjoyed your food and the experience."
  let vouch :=
    "If you’re satisfied with your order, drop a vouch in <#" ++ VOUCH_CHANNEL_ID ++
      "> for points towards a reward!"
  { color := 0x22aa66
    title := "✅ Order Arrived!"
    url := link
    fields :=
      [⟨"📦 Order Status", "Enjoy your order!", false⟩,
       ⟨"🙏 Thank You!", thanks, false⟩,
       ⟨"📝 Leave a Vouch", vouch, false⟩]
    footer := "Updated by " ++ BRAND
    timestamp := ts
    thumbnail := serverIconURL }

/-- `linkRow(link, delivered)` + the surrounding payload object, for a
normal cycle publish. -/
def buildCyclePayload (data : Snapshot) (deliveredNow : Bool) (url : String)
    (serverIconURL : Option String) (ts : String) : Payload :=
  if deliveredNow then
    { content := ""
      embed := buildDeliveredEmbed (some url) serverIconURL ts
      buttonLabel := "Order Link"
      buttonUrl := jsOrS url "https://www.ubereats.com/" }
  else
    { content := ""
      embed := buildActiveEmbed data (some url) serverIconURL ts
      buttonLabel := "Track Order"
      buttonUrl := jsOrS url "https://www.ubereats.com/" }

/-- JSON string escaping (the cases `JSON.stringify` hits on these texts). -/
def jsonEsc : List Char → List Char
  | [] => []
  | c :: rest =>
    if c = '"' then '\\' :: '"' :: jsonEsc rest
    else if c = '\\' then '\\' :: '\\' :: jsonEsc rest
    else if c = '\n' then '\\' :: 'n' :: jsonEsc rest
    else c :: jsonEsc rest

def jsonStr (s : String) : String :=
  "\"" ++ ⟨jsonEsc s.data⟩ ++ "\""

def jsonOptStr (s : Option String) : String :=
  match s with
  | some v => jsonStr v
  | none => "null"

def encodeField (f : EmbedField) : String :=
  "\x7b\"name\":" ++ jsonStr f.name ++ ",\"value\":" ++ jsonStr f.value ++
    ",\"inline\":" ++ (if f.fieldInline then "true" else "false") ++ "\x7d"

def encodeEmbed (e : Embed) : String :=
  "\x7b\"color\":" ++ toString e.color ++ ",\"title\":" ++ jsonStr e.title ++
    ",\"url\":" ++ jsonOptStr e.url ++
    ",\"fields\":[" ++ String.intercalate "," (e.fields.map encodeField) ++ "]" ++
    ",\"footer\":\x7b\"text\":" ++ jsonStr e.footer ++ "\x7d" ++
    ",\"timestamp\":" ++ jsonStr e.timestamp ++
    ",\"thumbnail\":" ++ jsonOptStr e.thumbnail ++ "\x7d"

/-- `hashPayload(obj)` is `JSON.stringify(obj)` (the `catch` branch that
returns `Math.random()` is unreachable for these payload objects).  The
embed's `timestamp` — set to `new Date()` on every build — is part of the
serialised fingerprint. -/
def hashPayload (p : Payload) : String :=
  "\x7b\"content\":" ++ jsonStr p.content ++
    ",\"embeds\":[" ++ encodeEmbed p.embed ++ "]" ++
    ",\"components\":[\x7b\"label\":" ++ jsonStr p.buttonLabel ++
    ",\"url\":" ++ jsonStr p.buttonUrl ++ "\x7d]\x7d"

/- ──────────────── job store, runtime maps, polling cycle ──────────────── -/

/-- A `jobs` table row (`guild_id` and the created/updated stamps carry no
behaviour and are omitted; `last_error_at` is the parsed epoch-millisecond
value of the stored ISO string). -/
structure JobRow where
  url : String
  channel_id : String
  message_id : String
  assignee_user_id : Option String
  requester_user_id : Option String
  static_name : Option String
  last_phase : Option Phase
  last_hash : Option String
  last_error_at : Option Int
deriving DecidableEq, Repr

/-- One entry of the `states` map: `{ lastPhase, staticName, assigneeUserId }`. -/
structure RtState where
  assigneeUserId : Option String
  staticName : Option String
  lastPhase : Option Phase
deriving DecidableEq, Repr

/-- The process/durable state the cycle touches: the SQLite `jobs` table and
the three runtime `Map`s.  A `timers` entry records both its map key and the
message id captured by the `setInterval(() => runOnceAndUpdate(msg.id), …)`
closure — the two differ after a repost migration.  A `pages` entry records
whether the page object is still open. -/
structure World where
  rows : List JobRow
  timers : List (String × String)
  pages : List (String × Bool)
  states : List (String × RtState)
deriving DecidableEq, Repr

def mapLookup {α : Type} (m : List (String × α)) (k : String) : Option α :=
  (m.find? (fun p => p.1 == k)).map (·.2)

def mapErase {α : Type} (m : List (String × α)) (k : String) : List (String × α) :=
  m.filter (fun p => p.1 != k)

/-- `Map.set` (key order is irrelevant to every claim). -/
def mapSet {α : Type} (m : List (String × α)) (k : String) (v : α) : List (String × α) :=
  mapErase m k ++ [(k, v)]

/-- `const t = m.get(old); if (t) { m.delete(old); m.set(new, t); }`. -/
def mapMove {α : Type} (m : List (String × α)) (oldId newId : String) : List (String × α) :=
  match mapLookup m oldId with
  | some v => mapSet (mapErase m oldId) newId v
  | none => m

def rowsGet (rows : List JobRow) (mid : String) : Option JobRow :=
  rows.find? (fun r => r.message_id == mid)

/-- `DB.updateByMessageId` (`UPDATE jobs SET … WHERE message_id = ?`). -/
def rowsUpdate (rows : List JobRow) (mid : String) (f : JobRow → JobRow) : List JobRow :=
  rows.map (fun r => if r.message_id == mid then f r else r)

/-- `DB.deleteByMessageId`. -/
def rowsDelete (rows : List JobRow) (mid : String) : List JobRow :=
  rows.filter (fun r => r.message_id != mid)

/-- `isDetachErr` (`/detached Frame/i.test(String(e.message || e))`). -/
def isDetachErr (m : String) : Bool :=
  strContainsCI m "detached frame"

/-- JS truthiness of a nullable string. -/
def truthyS : Option String → Bool
  | none => false
  | some s => !s.isEmpty

/-- Result of one `scrapeOrderPage` call as the cycle sees it: a snapshot,
a `{ requiresLogin: true }` marker, or a thrown error message. -/
inductive FetchResult where
  | ok (snap : Snapshot)
  | login
  | fault (msg : String)
deriving DecidableEq, Repr

/-- Whether the job's published message still exists: `.ok` means the edit
succeeds, `.missing` means `fetchMessage` returned null or the edit failed
with code 10008 (Unknown Message), so `safeEditOrRepost` reposts. -/
inductive EditResult where
  | ok
  | missing
deriving DecidableEq, Repr

/-- What one cycle did (messages sent, payload published, name/phase used). -/
structure CycleOut where
  dmSent : Bool
  published : Bool
  notifStart : Bool
  notifUpdate : Bool
  finalMsg : Bool
  reportedName : Option String
  phaseUsed : Option Phase
  terminated : Bool
deriving DecidableEq, Repr

def noOut : CycleOut :=
  ⟨false, false, false, false, false, none, none, false⟩

/-- `safeEditOrRepost`: on a missing message, send a new message (`newId`),
update the store row's `message_id`, and move the `timers`/`pages`/`states`
entries to the new key.  Returns the id the job's message now lives under. -/
def editOrRepost (w : World) (oldId newId : String) (edit : EditResult) : World × String :=
  match edit with
  | .ok => (w, oldId)
  | .missing =>
    ({ rows := w.rows.map (fun r =>
         if r.message_id == oldId then { r with message_id := newId } else r)
       timers := mapMove w.timers oldId newId
       pages := mapMove w.pages oldId newId
       states := mapMove w.states oldId newId }, newId)

/-- `page.close()` on the page object currently indexed at `k`. -/
def closePage (pages : List (String × Bool)) (k : String) : List (String × Bool) :=
  pages.map (fun p => if p.1 == k then (p.1, false) else p)

/-- The name latch (`runOnceAndUpdate` lines 571-574): first component is
the updated `st.staticName`, second is the `data.name` the cycle reports. -/
def latchStep (st n : Option String) : Option String × Option String :=
  let st1 := if !truthyS st && truthyS n then n else st
  let rep := if truthyS st1 && !truthyS n then st1 else n
  (st1, rep)

/-- `classifyPhase(data.statusLine || data.statusText) || st.lastPhase || null`. -/
def cyclePhase (lastPhase : Option Phase) (snap : Snapshot) : Option Phase :=
  match classifyPhase (jsOr snap.statusLine snap.statusText) with
  | some p => some p
  | none => lastPhase

/-- `!!data.delivered || phase === 'DELIVERED'`. -/
def deliveredNowOf (lastPhase : Option Phase) (snap : Snapshot) : Bool :=
  snap.delivered || cyclePhase lastPhase snap == some Phase.DELIVERED

/-- `job.last_error_at && Date.now() - new Date(job.last_error_at).getTime() < 5 * 60_000`:
was an error already reported for this job within the last five minutes? -/
def tooSoonAt (job : JobRow) (now : Int) : Bool :=
  match job.last_error_at with
  | some t => decide (now - t < 300000)
  | none => false

/-- The successful-scrape path of `runOnceAndUpdate`.  The guild icon URL is
modelled as absent (it does not vary with the cycle inputs any claim uses). -/
def runOkPath (w : World) (messageId : String) (job : JobRow) (snap : Snapshot)
    (edit : EditResult) (newMid : String) (ts : String) : World × CycleOut :=
  let st0 := (mapLookup w.states messageId).getD ⟨none, none, none⟩
  let latch := latchStep st0.staticName snap.name
  let reported := latch.2
  let phase := cyclePhase st0.lastPhase snap
  let deliveredNow := snap.delivered || phase == some Phase.DELIVERED
  let notifStart := truthyS st0.assigneeUserId && st0.lastPhase.isNone && phase.isSome
  let notifUpdate := truthyS st0.assigneeUserId && phase.isSome && st0.lastPhase.isSome &&
    phase != st0.lastPhase
  let st1 : RtState := ⟨st0.assigneeUserId, latch.1, phase⟩
  let dataShown := { snap with name := reported }
  let h := hashPayload (buildCyclePayload dataShown deliveredNow job.url none ts)
  -- "Edit only on change": publish and persist only when the hash moved
  let pub :=
    if some h != job.last_hash then
      let wc := editOrRepost w messageId newMid edit
      ({ wc.1 with
          rows := rowsUpdate wc.1.rows messageId (fun r =>
            { r with
                last_hash := some h
                last_phase := st1.lastPhase
                static_name := if truthyS st1.staticName then st1.staticName else none
                last_error_at := none }) },
       wc.2, true)
    else (w, messageId, false)
  let w1 := pub.1
  let curId := pub.2.1
  let didPublish := pub.2.2
  if deliveredNow then
    ({ w1 with
        timers := mapErase w1.timers messageId
        pages := mapErase (closePage w1.pages curId) messageId
        rows := rowsDelete w1.rows messageId
        states := mapErase w1.states messageId },
     { dmSent := false, published := didPublish, notifStart := notifStart,
       notifUpdate := notifUpdate, finalMsg := truthyS st0.assigneeUserId,
       reportedName := reported, phaseUsed := phase, terminated := true })
  else
    ({ w1 with states := mapSet w1.states messageId st1 },
     { dmSent := false, published := didPublish, notifStart := notifStart,
       notifUpdate := notifUpdate, finalMsg := false,
       reportedName := reported, phaseUsed := phase, terminated := false })

/-- `runOnceAndUpdate(messageId)` as a state transition.  `fetch` is the
outcome of `scrapeOrderPage`, `edit` says whether the published message
still exists, `newMid` is the id a repost would create, `now` the cycle's
clock in epoch milliseconds and `ts` its ISO rendering used for embed
timestamps. -/
def runCycle (w : World) (messageId : String) (fetch : FetchResult) (edit : EditResult)
    (newMid : String) (now : Int) (ts : String) : World × CycleOut :=
  match rowsGet w.rows messageId with
  | none => ({ w with timers := mapErase w.timers messageId }, noOut)
  | some job =>
    match mapLookup w.pages messageId with
    | none => (w, noOut)
    | some _ =>
      match fetch with
      | .fault m =>
        if isDetachErr m then (w, noOut)
        else if tooSoonAt job now then (w, noOut)
        else
            ({ w with
                rows := rowsUpdate w.rows messageId (fun r =>
                  { r with last_error_at := some now }) },
             { noOut with dmSent := true })
      | .login =>
        let wc := editOrRepost w messageId newMid edit
        ({ wc.1 with
            timers := mapErase wc.1.timers messageId
            pages := mapErase (closePage wc.1.pages wc.2) messageId
            rows := rowsDelete wc.1.rows messageId
            states := mapErase wc.1.states messageId },
         { noOut with dmSent := true, published := true, terminated := true })
      | .ok snap => runOkPath w messageId job snap edit newMid ts

/-- `startJob(channel, url, requesterUserId)`: publish the placeholder
message (id `newMsgId`), insert the row, create the page and state entries,
run one immediate cycle, and only then register the recurring timer. -/
def startJob (w : World) (newMsgId channel url : String)
    (assignee requester : Option String) (firstFetch : FetchResult) (edit : EditResult)
    (repostId : String) (now : Int) (ts : String) : World × CycleOut :=
  let row0 : JobRow :=
    { url := url, channel_id := channel, message_id := newMsgId,
      assignee_user_id := assignee, requester_user_id := requester,
      static_name := none, last_phase := none, last_hash := none, last_error_at := none }
  let w1 : World :=
    { w with
        rows := w.rows ++ [row0]
        pages := mapSet w.pages newMsgId true
        states := mapSet w.states newMsgId ⟨assignee, none, none⟩ }
  let rc := runCycle w1 newMsgId firstFetch edit repostId now ts
  ({ rc.1 with timers := mapSet rc.1.timers newMsgId newMsgId }, rc.2)

/-- Outcome of one navigation/scrape attempt inside `scrapeOrderPage`. -/
inductive AttemptOut where
  | ok (snap : Snapshot)
  | login
  | thr (msg : String)
deriving DecidableEq, Repr

/-- `scrapeOrderPage(page, url)`: the two-iteration retry loop.  Only a
detached-frame error on the first attempt triggers the second attempt; any
other error propagates at once.  Also returns how many attempts ran. -/
def scrapeOrderPage (a0 a1 : AttemptOut) : FetchResult × Nat :=
  match a0 with
  | .ok snap => (.ok snap, 1)
  | .login => (.login, 1)
  | .thr m =>
    if isDetachErr m then
      match a1 with
      | .ok snap => (.ok snap, 2)
      | .login => (.login, 2)
      | .thr m2 => (.fault m2, 2)
    else (.fault m, 1)

/-- A minimal delivered snapshot. -/
def snapDelivered : Snapshot :=
  { statusText := "Your order has been delivered"
    statusLine := some "Your order has been delivered"
    etaLine := none, store := none, name := none, unit := none, address := none
    delivery_type := none, delivery_note_typed := none, cart := [], delivered := true }

/-- A minimal active (preparing) snapshot. -/
def snapPreparing : Snapshot :=
  { statusText := "Preparing your order"
    statusLine := some "Preparing your order"
    etaLine := none, store := none, name := none, unit := none, address := none
    delivery_type := none, delivery_note_typed := none, cart := [], delivered := false }

/-- The first-cycle world used by several concrete theorems: one job `m1`
whose row, timer, page and state all exist, with `last_hash` recording the
payload published for `snapPreparing` at timestamp `ts`. -/
def worldAfterPublish (ts : String) : World :=
  { rows := [{ url := "u", channel_id := "c", message_id := "m1",
               assignee_user_id := none, requester_user_id := none,
               static_name := none, last_phase := some Phase.PREPARING,
               last_hash := some (hashPayload (buildCyclePayload snapPreparing false "u" none ts)),
               last_error_at := none }]
    timers := [("m1", "m1")]
    pages := [("m1", true)]
    states := [("m1", ⟨none, none, some Phase.PREPARING⟩)] }

/-- A page whose headline never says "delivered" but whose body carries the
enjoy + thanks pair. -/
def docEnjoy : Node :=
  Node.el "body" none []
    [ Node.el "div" (some "active-order-sticky-eta") []
        [ Node.el "div" none [] [Node.text "Heading your way"] ],
      Node.el "p" none [] [Node.text "Enjoy your order!"],
      Node.el "p" none [] [Node.text "Thanks for using Uber Eats."] ]

/-- The runtime state a cycle starts from (`states.get(messageId) || {}`). -/
def cycleSt0 (w : World) (mid : String) : RtState :=
  (mapLookup w.states mid).getD ⟨none, none, none⟩

/-- The fingerprint a successful cycle computes for its would-be payload. -/
def cycleHash (job : JobRow) (st0 : RtState) (snap : Snapshot) (ts : String) : String :=
  hashPayload
    (buildCyclePayload { snap with name := (latchStep st0.staticName snap.name).2 }
      (deliveredNowOf st0.lastPhase snap) job.url none ts)

/-- A live job `m1` that has not published yet (`last_hash` null). -/
def rowM1 : JobRow :=
  { url := "u", channel_id := "c", message_id := "m1",
    assignee_user_id := none, requester_user_id := none,
    static_name := none, last_phase := none, last_hash := none, last_error_at := none }

def worldLive : World :=
  { rows := [rowM1]
    timers := [("m1", "m1")]
    pages := [("m1", true)]
    states := [("m1", ⟨none, none, none⟩)] }

example : classifyPhase "Heading your way" = some Phase.HEADING := by decide
example : classifyPhase "Almost there" = some Phase.ALMOST_HERE := by decide
example : classifyPhase "Your order has been delivered" = some Phase.DELIVERED := by decide
example : classifyPhase "Hello" = none := by decide
example : classifyPhase "Your order is being prepared" = none := by decide
example : classifyPhase "Preparing your order" = some Phase.PREPARING := by decide

example : typeFind "Please leave it at my door thanks" = some "leave it at my door" := by decide
example : typeFind "Meet at the door" = some "Meet at the door" := by decide
example : typeTest "hand to me" = false := by decide
example : optionFind "PRIORITY delivery" = some "Priority" := by decide
example : optionFind "standardize" = none := by decide
example : deliveredStatusTest "Order delivered!" = true := by decide
example : deliveredStatusTest "undelivered" = false := by decide

example :
    addrFind "From 742 Evergreen Terrace, Springfield, IL 62704, US to you" =
      some "742 Evergreen Terrace, Springfield, IL 62704, US" := by decide
example : addrTest "742 Evergreen Terrace" = false := by decide
example : addrFind "10 A St, B'ham, AL 35004-1234" = some "10 A St, B'ham, AL 35004-1234" := by
  decide

example : unitFromRaw "Address stuff Apt 4B" = some "Apt: 4B" := by decide
example : unitFromRaw "suite - 12" = some "Suite: 12" := by decide
example : unitFromRaw "no unit info!" = none := by decide
example : unitHintTest "Apt 4B" = true := by decide
example : unitHintTest "apartments galore" = false := by decide
example : unitHintTest "#4" = true := by decide
example : unitHintTest "# 4" = false := by decide

example : unitFromRaw "3rd floor" = some "Fl: oor" := by decide

example : nameCapture "Preparing Alice's order" = some "Alice" := by decide
example : nameCapture "Heading Bob Jr.’s way" = some "Bob Jr." := by decide
example : nameCapture "Your order has been delivered" = none := by decide
example : nameCapture "picking up Carol's order now" = some "Carol" := by decide

example : (scrapeFromHTML docRich).statusLine = some "Preparing Alice's order" := by decide
example : (scrapeFromHTML docRich).etaLine = some "Estimated arrival 2:30 PM" := by decide
example : (scrapeFromHTML docRich).statusText =
    "Preparing Alice's order Estimated arrival 2:30 PM" := by decide
example : (scrapeFromHTML docRich).store = some "Pizza Palace" := by decide
example : (scrapeFromHTML docRich).name = some "Alice" := by decide
example : (scrapeFromHTML docRich).address =
    some "742 Evergreen Terrace, Springfield, IL 62704, US" := by decide
example : (scrapeFromHTML docRich).unit ≠ none := by decide
example : (scrapeFromHTML docRich).delivery_type = some "Leave at door • Priority" := by decide
example : (scrapeFromHTML docRich).delivery_note_typed = some "ring the bell twice" := by decide
example : (scrapeFromHTML docRich).cart = ["Burger — x2"] := by decide
example : (scrapeFromHTML docRich).delivered = false := by decide
example : (scrapeFromHTML docEmpty).statusText = "Unknown status" := by decide
example : (scrapeFromHTML docEmpty).statusLine = none := by decide

set_option maxRecDepth 10000 in
example :
    (startJob ⟨[], [], [], []⟩ "m1" "c" "u" none none (.ok snapDelivered) .ok "mX" 0 "T").1 =
      ⟨[], [("m1", "m1")], [], []⟩ := by decide

set_option maxRecDepth 10000 in
example :
    hashPayload (buildCyclePayload snapPreparing false "u" none "2025-01-01T00:00:00.000Z") ≠
      hashPayload (buildCyclePayload snapPreparing false "u" none "2025-01-01T00:01:00.000Z") := by
  decide

/- ───────────────────────────── claims ───────────────────────────── -/

/-- C3 counterexample: the claim says `classify` returns `PREPARING` for
"Your order is being prepared", but rule 1 matches the word `preparing`
(and `received`/`confirm…`/…), none of which occurs in that headline, and
no later rule matches either — the classifier returns absent. -/
theorem c3_prepared_headline_unclassified :
    classifyPhase "Your order is being prepared" = none := by decide

/-- C3 (amended): `classify` is the ordered first-match-wins rule list over
the lower-cased headline; it returns HEADING for "Heading your way",
ALMOST_HERE for "Almost there", DELIVERED for "Your order has been
delivered", absent for "Hello", PREPARING for an actual preparing-rule
headline such as "Preparing your order" — but absent for "Your order is
being prepared" (the rule matches "preparing", not "prepared").  Earlier
rules win: a headline matching both the preparing and the delivered rules
classifies as PREPARING, and one matching both the almost-here and the
delivered rules classifies as ALMOST_HERE. -/
theorem c3_classifier_table :
    classifyPhase "Heading your way" = some Phase.HEADING ∧
    classifyPhase "Almost there" = some Phase.ALMOST_HERE ∧
    classifyPhase "Your order has been delivered" = some Phase.DELIVERED ∧
    classifyPhase "Hello" = none ∧
    classifyPhase "Preparing your order" = some Phase.PREPARING ∧
    classifyPhase "Your order is being prepared" = none ∧
    (rulePreparing (lowerStr "Order confirmed — delivered") = true ∧
      ruleDelivered (lowerStr "Order confirmed — delivered") = true ∧
      classifyPhase "Order confirmed — delivered" = some Phase.PREPARING) ∧
    (ruleAlmostHere (lowerStr "Almost there — delivered") = true ∧
      ruleDelivered (lowerStr "Almost there — delivered") = true ∧
      classifyPhase "Almost there — delivered" = some Phase.ALMOST_HERE) := by
  decide

/-- C1: the claim (and the source's own `// Edit only on change` comment)
requires that an unchanged snapshot fingerprints equal to the stored
fingerprint so the cycle does not republish.  But `buildActiveEmbed` calls
`.setTimestamp(new Date())` and `hashPayload` is `JSON.stringify`, so the
serialised payload embeds the cycle's wall-clock timestamp: the very same
snapshot hashes differently one poll later, the fingerprint comparison
never matches, and the cycle edits the message again. -/
theorem c1_timestamp_defeats_fingerprint :
    hashPayload
        (buildCyclePayload snapPreparing false "u" none "2025-01-01T00:00:00.000Z") ≠
      hashPayload
        (buildCyclePayload snapPreparing false "u" none "2025-01-01T00:01:00.000Z") ∧
    (runCycle (worldAfterPublish "2025-01-01T00:00:00.000Z") "m1" (.ok snapPreparing) .ok
          "m2" 60000 "2025-01-01T00:01:00.000Z").2.published = true := by
  constructor
  · decide
  · decide

/-- C9: the extractor's delivered flag is exactly the disjunction of (a) a
word-bounded delivered/arrived match on the status text, (b) the page text
containing both "Enjoy your order!" and "Thanks for using Uber Eats.", and
(c) the presence of a back-to-restaurants action element; in particular it
fires on the enjoy+thanks pair for a page whose headline only says
"Heading your way". -/
theorem c9_delivered_flag :
    (∀ doc : Node,
      (scrapeFromHTML doc).delivered =
        (deliveredStatusTest (scrapeFromHTML doc).statusText ||
          ((strContainsCI (textAllOf doc) "enjoy your order!" &&
            strContainsCI (textAllOf doc) "thanks for using uber eats.") ||
           (elemsOf doc).any (fun e => e.testidOf = some "back-to-restaurants-primary-action")))) ∧
    (scrapeFromHTML docEnjoy).delivered = true ∧
    deliveredStatusTest (scrapeFromHTML docEnjoy).statusText = false ∧
    (scrapeFromHTML docEnjoy).statusLine = some "Heading your way" := by
  refine ⟨fun doc => rfl, ?_, ?_, ?_⟩ <;> decide

/- ─────────────────── small lemmas about the map model ─────────────────── -/

theorem mapLookup_set_self {α : Type} (m : List (String × α)) (k : String) (v : α) :
    mapLookup (mapSet m k v) k = some v := by
  unfold mapSet mapLookup
  rw [List.find?_append]
  have h1 : (mapErase m k).find? (fun p => p.1 == k) = none := by
    rw [List.find?_eq_none]
    intro x hx
    unfold mapErase at hx
    have := List.of_mem_filter hx
    simp only [bne_iff_ne, ne_eq, decide_eq_true_eq] at this ⊢
    simpa using this
  rw [h1]
  simp

theorem mapLookup_erase_self {α : Type} (m : List (String × α)) (k : String) :
    mapLookup (mapErase m k) k = none := by
  unfold mapLookup
  have h1 : (mapErase m k).find? (fun p => p.1 == k) = none := by
    rw [List.find?_eq_none]
    intro x hx
    unfold mapErase at hx
    have := List.of_mem_filter hx
    simp only [bne_iff_ne, ne_eq, decide_eq_true_eq] at this ⊢
    simpa using this
  rw [h1]
  rfl

theorem mapLookup_erase_ne {α : Type} (m : List (String × α)) (k k' : String)
    (h : k' ≠ k) : mapLookup (mapErase m k) k' = mapLookup m k' := by
  unfold mapLookup mapErase
  induction m with
  | nil => rfl
  | cons p ps ih =>
    by_cases hp : p.1 = k'
    · have hpk : (p.1 != k) = true := by simp [hp, h]
      simp [List.filter_cons, hpk, List.find?_cons, hp, h]
    · by_cases hpk : (p.1 != k) = true
      · simpa [List.filter_cons, hpk, List.find?_cons, hp] using ih
      · simpa [List.filter_cons, hpk, List.find?_cons, hp] using ih

theorem rowsGet_delete_self (rows : List JobRow) (mid : String) :
    rowsGet (rowsDelete rows mid) mid = none := by
  unfold rowsGet rowsDelete
  rw [List.find?_eq_none]
  intro r hr
  have := List.of_mem_filter hr
  simp only [bne_iff_ne, ne_eq, decide_eq_true_eq] at this
  simp [this]

theorem rowsGet_update_same (rows : List JobRow) (mid : String) (f : JobRow → JobRow)
    (hf : ∀ r, (f r).message_id = r.message_id) :
    rowsGet (rowsUpdate rows mid f) mid = (rowsGet rows mid).map f := by
  unfold rowsGet rowsUpdate
  induction rows with
  | nil => rfl
  | cons r rs ih =>
    by_cases hr : r.message_id = mid
    · simp [List.find?_cons, hr, hf]
    · simpa [List.find?_cons, hr] using ih

/-- C5 counterexample: the claim says a transient *network* fault is
retried exactly once inline before propagating.  But `scrapeOrderPage` only
retries when `isDetachErr` matches; a network error on the first attempt
propagates immediately after a single attempt, even though (as here) the
second attempt would have succeeded. -/
theorem c5_network_fault_not_retried :
    scrapeOrderPage (.thr "net::ERR_CONNECTION_RESET") (.ok snapPreparing) =
      (.fault "net::ERR_CONNECTION_RESET", 1) ∧
    isDetachErr "net::ERR_CONNECTION_RESET" = false := by
  constructor <;> decide

/-- C5 (amended): only detached-frame faults are retried (exactly once);
any other fault propagates after one attempt.  In the cycle, a propagated
fault never terminates the job — the timers/pages/states maps are untouched
and the store row survives; a detached-frame fault is dropped silently,
while any other fault is reported to the requester at most once per
5-minute window (measured via the persisted `last_error_at`, which is
stamped when the notification is sent). -/
theorem c5_fault_handling
    (m m2 : String) (a1 : AttemptOut) (snap : Snapshot)
    (w : World) (mid newMid : String) (edit : EditResult) (now : Int) (ts : String)
    (job : JobRow)
    (hrow : rowsGet w.rows mid = some job)
    (hpage : (mapLookup w.pages mid).isSome = true) :
    (isDetachErr m = false → scrapeOrderPage (.thr m) a1 = (.fault m, 1)) ∧
    (isDetachErr m = true → scrapeOrderPage (.thr m) (.ok snap) = (.ok snap, 2)) ∧
    (isDetachErr m = true → scrapeOrderPage (.thr m) (.thr m2) = (.fault m2, 2)) ∧
    ((runCycle w mid (.fault m) edit newMid now ts).1.timers = w.timers ∧
     (runCycle w mid (.fault m) edit newMid now ts).1.pages = w.pages ∧
     (runCycle w mid (.fault m) edit newMid now ts).1.states = w.states ∧
     (rowsGet (runCycle w mid (.fault m) edit newMid now ts).1.rows mid).isSome = true ∧
     (runCycle w mid (.fault m) edit newMid now ts).2.terminated = false ∧
     (isDetachErr m = true → runCycle w mid (.fault m) edit newMid now ts = (w, noOut)) ∧
     (isDetachErr m = false → tooSoonAt job now = true →
        runCycle w mid (.fault m) edit newMid now ts = (w, noOut)) ∧
     (isDetachErr m = false → tooSoonAt job now = false →
        (runCycle w mid (.fault m) edit newMid now ts).2.dmSent = true ∧
        rowsGet (runCycle w mid (.fault m) edit newMid now ts).1.rows mid =
          some { job with last_error_at := some now })) := by
  obtain ⟨b, hb⟩ := Option.isSome_iff_exists.mp hpage
  have hup :
      rowsGet (rowsUpdate w.rows mid (fun r => { r with last_error_at := some now })) mid =
        some { job with last_error_at := some now } := by
    rw [rowsGet_update_same w.rows mid (fun r => { r with last_error_at := some now })
        (fun r => rfl), hrow]
    rfl
  refine ⟨?_, ?_, ?_, ?_⟩
  · intro h; simp [scrapeOrderPage, h]
  · intro h; simp [scrapeOrderPage, h]
  · intro h; simp [scrapeOrderPage, h]
  · by_cases hd : isDetachErr m
    · simp [runCycle, hrow, hb, hd, noOut]
    · by_cases hts : tooSoonAt job now
      · simp [runCycle, hrow, hb, hd, hts, noOut]
      · simp [runCycle, hrow, hb, hd, hts, hup, noOut]

/-- C5 witness: a non-detach network fault on a live job sends the DM. -/
theorem c5_fault_handling_witness :
    (runCycle (worldAfterPublish "T") "m1" (.fault "net::oops") .ok "m2" 0 "T").2.dmSent =
      true := by
  have h :=
    c5_fault_handling "net::oops" "x" (.ok snapPreparing) snapPreparing
      (worldAfterPublish "T") "m1" "m2" .ok 0 "T"
      { url := "u", channel_id := "c", message_id := "m1",
        assignee_user_id := none, requester_user_id := none,
        static_name := none, last_phase := some Phase.PREPARING,
        last_hash := some (hashPayload (buildCyclePayload snapPreparing false "u" none "T")),
        last_error_at := none }
      (by decide) (by decide)
  exact (h.2.2.2.2.2.2.2.2.2.2 (by decide) (by decide)).1

/-- Full description of a successful-scrape cycle whose published message
still exists (`edit = .ok`). -/
theorem runCycle_ok_spec (w : World) (mid newMid : String) (job : JobRow) (snap : Snapshot)
    (now : Int) (ts : String)
    (hrow : rowsGet w.rows mid = some job)
    (hpage : (mapLookup w.pages mid).isSome = true) :
    (runCycle w mid (.ok snap) .ok newMid now ts).2 =
      { dmSent := false
        published := some (cycleHash job (cycleSt0 w mid) snap ts) != job.last_hash
        notifStart := truthyS (cycleSt0 w mid).assigneeUserId &&
          (cycleSt0 w mid).lastPhase.isNone && (cyclePhase (cycleSt0 w mid).lastPhase snap).isSome
        notifUpdate := truthyS (cycleSt0 w mid).assigneeUserId &&
          (cyclePhase (cycleSt0 w mid).lastPhase snap).isSome &&
          (cycleSt0 w mid).lastPhase.isSome &&
          cyclePhase (cycleSt0 w mid).lastPhase snap != (cycleSt0 w mid).lastPhase
        finalMsg := deliveredNowOf (cycleSt0 w mid).lastPhase snap &&
          truthyS (cycleSt0 w mid).assigneeUserId
        reportedName := (latchStep (cycleSt0 w mid).staticName snap.name).2
        phaseUsed := cyclePhase (cycleSt0 w mid).lastPhase snap
        terminated := deliveredNowOf (cycleSt0 w mid).lastPhase snap } ∧
    (deliveredNowOf (cycleSt0 w mid).lastPhase snap = true →
      rowsGet (runCycle w mid (.ok snap) .ok newMid now ts).1.rows mid = none ∧
      mapLookup (runCycle w mid (.ok snap) .ok newMid now ts).1.timers mid = none ∧
      mapLookup (runCycle w mid (.ok snap) .ok newMid now ts).1.pages mid = none ∧
      mapLookup (runCycle w mid (.ok snap) .ok newMid now ts).1.states mid = none) ∧
    (deliveredNowOf (cycleSt0 w mid).lastPhase snap = false →
      (runCycle w mid (.ok snap) .ok newMid now ts).1.timers = w.timers ∧
      (runCycle w mid (.ok snap) .ok newMid now ts).1.pages = w.pages ∧
      mapLookup (runCycle w mid (.ok snap) .ok newMid now ts).1.states mid =
        some ⟨(cycleSt0 w mid).assigneeUserId, (latchStep (cycleSt0 w mid).staticName snap.name).1,
          cyclePhase (cycleSt0 w mid).lastPhase snap⟩ ∧
      ((rowsGet (runCycle w mid (.ok snap) .ok newMid now ts).1.rows mid = some job ∧
          some (cycleHash job (cycleSt0 w mid) snap ts) = job.last_hash) ∨
        rowsGet (runCycle w mid (.ok snap) .ok newMid now ts).1.rows mid =
          some { job with
            last_hash := some (cycleHash job (cycleSt0 w mid) snap ts)
            last_phase := cyclePhase (cycleSt0 w mid).lastPhase snap
            static_name :=
              if truthyS (latchStep (cycleSt0 w mid).staticName snap.name).1 then
                (latchStep (cycleSt0 w mid).staticName snap.name).1
              else none
            last_error_at := none })) := by
  obtain ⟨b, hb⟩ := Option.isSome_iff_exists.mp hpage
  have hred : runCycle w mid (.ok snap) .ok newMid now ts = runOkPath w mid job snap .ok newMid ts := by
    simp [runCycle, hrow, hb]
  rw [hred]
  have hup := rowsGet_update_same w.rows mid
    (fun r => { r with
      last_hash := some (cycleHash job (cycleSt0 w mid) snap ts)
      last_phase := cyclePhase (cycleSt0 w mid).lastPhase snap
      static_name :=
        if truthyS (latchStep (cycleSt0 w mid).staticName snap.name).1 then
          (latchStep (cycleSt0 w mid).staticName snap.name).1
        else none
      last_error_at := none }) (fun r => rfl)
  rw [hrow] at hup
  unfold runOkPath editOrRepost cycleSt0 cycleHash deliveredNowOf
  by_cases hdel : deliveredNowOf (cycleSt0 w mid).lastPhase snap = true
  · by_cases hpub : some (cycleHash job (cycleSt0 w mid) snap ts) = job.last_hash
    all_goals
      simp only [cycleSt0, cycleHash, deliveredNowOf] at hpub hdel hup
      simp only [hdel] at hpub hup
      simp [hpub, hdel, bne_iff_ne, mapLookup_erase_self, rowsGet_delete_self,
        mapLookup_set_self, hup, hrow]
  · have hdel' : deliveredNowOf (cycleSt0 w mid).lastPhase snap = false := by
      simpa using hdel
    by_cases hpub : some (cycleHash job (cycleSt0 w mid) snap ts) = job.last_hash
    all_goals
      simp only [cycleSt0, cycleHash, deliveredNowOf] at hpub hdel' hup
      simp only [hdel'] at hpub hup
      simp [hpub, hdel', bne_iff_ne, mapLookup_erase_self, rowsGet_delete_self,
        mapLookup_set_self, hup, hrow]

/-- Once the latch holds a truthy name, folding any further readings through
the latch never changes it. -/
theorem latchFold_sticky (st : Option String) (h : truthyS st = true)
    (ns : List (Option String)) :
    List.foldl (fun a x => (latchStep a x).1) st ns = st := by
  induction ns with
  | nil => rfl
  | cons x xs ih =>
    rw [List.foldl_cons, show (latchStep st x).1 = st from by simp [latchStep, h]]
    exact ih

/-- C2: the name latch.  (i) a latched (truthy) name is never overwritten by
any later reading; (ii) when the extracted name is absent the cycle reports
the latched name; (iii) over any sequence of readings the latch stays at
the first truthy name ever seen; and, at the cycle level, (iv) the reported
name is exactly the latch step's output and (v) a non-terminating cycle
stores the latched name back into the runtime state. -/
theorem c2_name_latch
    (st n : Option String) (ns : List (Option String))
    (w : World) (mid newMid : String) (job : JobRow) (snap : Snapshot)
    (now : Int) (ts : String)
    (hrow : rowsGet w.rows mid = some job)
    (hpage : (mapLookup w.pages mid).isSome = true) :
    (truthyS st = true → (latchStep st n).1 = st) ∧
    (truthyS st = true → truthyS n = false → (latchStep st n).2 = st) ∧
    (truthyS st = true → List.foldl (fun a x => (latchStep a x).1) st ns = st) ∧
    (truthyS st = false → truthyS n = true →
      List.foldl (fun a x => (latchStep a x).1) st (n :: ns) = n) ∧
    ((runCycle w mid (.ok snap) .ok newMid now ts).2.reportedName =
      (latchStep (cycleSt0 w mid).staticName snap.name).2) ∧
    (deliveredNowOf (cycleSt0 w mid).lastPhase snap = false →
      mapLookup (runCycle w mid (.ok snap) .ok newMid now ts).1.states mid =
        some ⟨(cycleSt0 w mid).assigneeUserId,
          (latchStep (cycleSt0 w mid).staticName snap.name).1,
          cyclePhase (cycleSt0 w mid).lastPhase snap⟩) := by
  have spec := runCycle_ok_spec w mid newMid job snap now ts hrow hpage
  refine ⟨?_, ?_, ?_, ?_, ?_, ?_⟩
  · intro h; simp [latchStep, h]
  · intro h1 h2; simp [latchStep, h1, h2]
  · intro h; exact latchFold_sticky st h ns
  · intro h1 h2
    rw [List.foldl_cons, show (latchStep st n).1 = n from by simp [latchStep, h1, h2]]
    exact latchFold_sticky n h2 ns
  · rw [spec.1]
  · intro hdel
    exact ((spec.2.2 hdel).2.2).1

/-- C2 witness: a job whose latch holds "Alice" reports "Alice" on a cycle
whose snapshot extracted no name, and keeps the latch in its state. -/
theorem c2_name_latch_witness :
    (runCycle
        { rows := [{ url := "u", channel_id := "c", message_id := "m1",
                     assignee_user_id := none, requester_user_id := none,
                     static_name := some "Alice", last_phase := some Phase.PREPARING,
                     last_hash := none, last_error_at := none }]
          timers := [("m1", "m1")]
          pages := [("m1", true)]
          states := [("m1", ⟨none, some "Alice", some Phase.PREPARING⟩)] }
        "m1" (.ok snapPreparing) .ok "m2" 0 "T").2.reportedName = some "Alice" := by
  have h :=
    c2_name_latch (some "Alice") none []
      { rows := [{ url := "u", channel_id := "c", message_id := "m1",
                   assignee_user_id := none, requester_user_id := none,
                   static_name := some "Alice", last_phase := some Phase.PREPARING,
                   last_hash := none, last_error_at := none }]
        timers := [("m1", "m1")]
        pages := [("m1", true)]
        states := [("m1", ⟨none, some "Alice", some Phase.PREPARING⟩)] }
      "m1" "m2"
      { url := "u", channel_id := "c", message_id := "m1",
        assignee_user_id := none, requester_user_id := none,
        static_name := some "Alice", last_phase := some Phase.PREPARING,
        last_hash := none, last_error_at := none }
      snapPreparing 0 "T" (by decide) (by decide)
  rw [h.2.2.2.2.1]
  decide

/-- C8: phase retention.  When the classifier returns absent the cycle's
phase is the previous phase unchanged; a phase that is set is never taken
back to absent (`classifyPhase(..) || st.lastPhase || null`); and, at the
cycle level, a non-terminating cycle stores exactly that retained phase in
the runtime state while the persisted row keeps either its old `last_phase`
(when the fingerprint was unchanged and nothing was written) or the
retained runtime phase (when the cycle published). -/
theorem c8_phase_retention
    (lp : Option Phase) (snap : Snapshot)
    (w : World) (mid newMid : String) (job : JobRow)
    (now : Int) (ts : String)
    (hrow : rowsGet w.rows mid = some job)
    (hpage : (mapLookup w.pages mid).isSome = true) :
    (classifyPhase (jsOr snap.statusLine snap.statusText) = none →
      cyclePhase lp snap = lp) ∧
    (lp.isSome = true → (cyclePhase lp snap).isSome = true) ∧
    ((runCycle w mid (.ok snap) .ok newMid now ts).2.phaseUsed =
      cyclePhase (cycleSt0 w mid).lastPhase snap) ∧
    (deliveredNowOf (cycleSt0 w mid).lastPhase snap = false →
      mapLookup (runCycle w mid (.ok snap) .ok newMid now ts).1.states mid =
        some ⟨(cycleSt0 w mid).assigneeUserId,
          (latchStep (cycleSt0 w mid).staticName snap.name).1,
          cyclePhase (cycleSt0 w mid).lastPhase snap⟩ ∧
      (∀ r, rowsGet (runCycle w mid (.ok snap) .ok newMid now ts).1.rows mid = some r →
        r.last_phase = job.last_phase ∨
        r.last_phase = cyclePhase (cycleSt0 w mid).lastPhase snap)) := by
  have spec := runCycle_ok_spec w mid newMid job snap now ts hrow hpage
  refine ⟨?_, ?_, ?_, ?_⟩
  · intro h; simp [cyclePhase, h]
  · intro h
    cases hc : classifyPhase (jsOr snap.statusLine snap.statusText) <;>
      simp [cyclePhase, hc, h]
  · rw [spec.1]
  · intro hdel
    refine ⟨((spec.2.2 hdel).2.2).1, ?_⟩
    intro r hr
    rcases (spec.2.2 hdel).2.2.2 with hkeep | hwrite
    · left
      rw [hkeep.1] at hr
      exact (Option.some.injEq _ _ ▸ hr : job = r) ▸ rfl
    · right
      rw [hwrite] at hr
      cases hr
      rfl

/-- C8 witness: an unclassifiable headline ("Hello") on a job whose last
phase was PREPARING keeps PREPARING in the runtime state. -/
theorem c8_phase_retention_witness :
    classifyPhase (jsOr (some "Hello") "Hello") = none ∧
    (runCycle (worldAfterPublish "T") "m1"
        (.ok { snapPreparing with statusText := "Hello", statusLine := some "Hello" }) .ok
        "m2" 0 "T2").2.phaseUsed = some Phase.PREPARING := by
  have h :=
    c8_phase_retention (some Phase.PREPARING)
      { snapPreparing with statusText := "Hello", statusLine := some "Hello" }
      (worldAfterPublish "T") "m1" "m2"
      { url := "u", channel_id := "c", message_id := "m1",
        assignee_user_id := none, requester_user_id := none,
        static_name := none, last_phase := some Phase.PREPARING,
        last_hash := some (hashPayload (buildCyclePayload snapPreparing false "u" none "T")),
        last_error_at := none }
      0 "T2" (by decide) (by decide)
  refine ⟨by decide, ?_⟩
  rw [h.2.2.1]
  decide

/-- C10 counterexample: a delivered snapshot on a cycle whose published
message no longer exists does NOT finalize the job as the claim demands:
`safeEditOrRepost` migrates the row and the runtime keys to the new message
id, after which the finalize step's deletes — keyed by the old id — are all
no-ops.  The store row survives (under "m2"), the timer keeps running (its
map key is "m2" while its callback still fires "m1"), and the runtime state
survives; only the page object got closed. -/
theorem c10_repost_blocks_finalize :
    (runCycle worldLive "m1" (.ok snapDelivered) .missing "m2" 0 "T").2.terminated = true ∧
    rowsGet (runCycle worldLive "m1" (.ok snapDelivered) .missing "m2" 0 "T").1.rows "m2" ≠
      none ∧
    mapLookup (runCycle worldLive "m1" (.ok snapDelivered) .missing "m2" 0 "T").1.timers
      "m2" = some "m1" ∧
    (mapLookup (runCycle worldLive "m1" (.ok snapDelivered) .missing "m2" 0 "T").1.states
      "m2").isSome = true ∧
    (runCycle worldLive "m1" (.ok snapDelivered) .missing "m2" 0 "T").1.pages =
      [("m2", false)] := by
  refine ⟨?_, ?_, ?_, ?_, ?_⟩ <;> decide

/-- C10 (amended): provided the published message still exists (no repost
migration), a successful cycle finalizes the job — final notifier message
iff an assignee exists, timer key removed, page entry removed, store row
deleted, runtime state dropped — exactly when the snapshot's delivered flag
is set OR the cycle's computed phase is DELIVERED; in particular a
DELIVERED headline classification alone terminates the job even when the
snapshot's delivered flag is false. -/
theorem c10_finalize_iff_delivered
    (w : World) (mid newMid : String) (job : JobRow) (snap : Snapshot)
    (now : Int) (ts : String)
    (hrow : rowsGet w.rows mid = some job)
    (hpage : (mapLookup w.pages mid).isSome = true) :
    ((runCycle w mid (.ok snap) .ok newMid now ts).2.terminated =
      deliveredNowOf (cycleSt0 w mid).lastPhase snap) ∧
    ((runCycle w mid (.ok snap) .ok newMid now ts).2.finalMsg =
      (deliveredNowOf (cycleSt0 w mid).lastPhase snap &&
        truthyS (cycleSt0 w mid).assigneeUserId)) ∧
    (deliveredNowOf (cycleSt0 w mid).lastPhase snap = true →
      rowsGet (runCycle w mid (.ok snap) .ok newMid now ts).1.rows mid = none ∧
      mapLookup (runCycle w mid (.ok snap) .ok newMid now ts).1.timers mid = none ∧
      mapLookup (runCycle w mid (.ok snap) .ok newMid now ts).1.pages mid = none ∧
      mapLookup (runCycle w mid (.ok snap) .ok newMid now ts).1.states mid = none) ∧
    (deliveredNowOf (cycleSt0 w mid).lastPhase snap = false →
      (rowsGet (runCycle w mid (.ok snap) .ok newMid now ts).1.rows mid).isSome = true ∧
      (runCycle w mid (.ok snap) .ok newMid now ts).1.timers = w.timers ∧
      (mapLookup (runCycle w mid (.ok snap) .ok newMid now ts).1.states mid).isSome =
        true) ∧
    (snap.delivered = false →
      cyclePhase (cycleSt0 w mid).lastPhase snap = some Phase.DELIVERED →
      deliveredNowOf (cycleSt0 w mid).lastPhase snap = true) := by
  have spec := runCycle_ok_spec w mid newMid job snap now ts hrow hpage
  refine ⟨?_, ?_, ?_, ?_, ?_⟩
  · rw [spec.1]
  · rw [spec.1]
  · exact spec.2.1
  · intro hdel
    refine ⟨?_, (spec.2.2 hdel).1, by rw [((spec.2.2 hdel).2.2).1]; rfl⟩
    rcases (spec.2.2 hdel).2.2.2 with hkeep | hwrite
    · rw [hkeep.1]; rfl
    · rw [hwrite]; rfl
  · intro h1 h2
    simp [deliveredNowOf, h1, h2]

/-- C10 witness: a headline classifying as DELIVERED with the snapshot's
delivered flag false still terminates and deletes the row. -/
theorem c10_finalize_iff_delivered_witness :
    (runCycle worldLive "m1" (.ok { snapDelivered with delivered := false }) .ok
        "m2" 0 "T").2.terminated = true ∧
    rowsGet (runCycle worldLive "m1" (.ok { snapDelivered with delivered := false }) .ok
        "m2" 0 "T").1.rows "m1" = none := by
  have h :=
    c10_finalize_iff_delivered worldLive "m1" "m2" rowM1
      { snapDelivered with delivered := false } 0 "T" (by decide) (by decide)
  have hdel :
      deliveredNowOf (cycleSt0 worldLive "m1").lastPhase
        { snapDelivered with delivered := false } = true := by decide
  exact ⟨by rw [h.1, hdel], (h.2.2.1 hdel).1⟩

/-- C7: after `safeEditOrRepost` reposts a lost message, the store row and
the `timers`/`pages`/`states` entries are indeed migrated to the new
message id "m2" — but the recurring timer's callback still invokes the
cycle with the captured old id "m1".  That tick finds no store row under
"m1" and returns having changed nothing (its timer-cleanup keys on "m1",
which no longer exists in the map), so the job's subsequent ticks never
find the migrated state: the row keeps its never-updated fingerprint, and
the timer under "m2" keeps firing dead ticks forever, contradicting the
claim that subsequent ticks find consistent state under the new id. -/
theorem c7_migrated_job_ticks_dead :
    (rowsGet (runCycle worldLive "m1" (.ok snapPreparing) .missing "m2" 0 "T").1.rows
      "m1" = none) ∧
    (rowsGet (runCycle worldLive "m1" (.ok snapPreparing) .missing "m2" 0 "T").1.rows
      "m2" = some { rowM1 with message_id := "m2" }) ∧
    (mapLookup (runCycle worldLive "m1" (.ok snapPreparing) .missing "m2" 0 "T").1.timers
      "m2" = some "m1") ∧
    ((mapLookup (runCycle worldLive "m1" (.ok snapPreparing) .missing "m2" 0 "T").1.pages
      "m2").isSome = true) ∧
    (runCycle (runCycle worldLive "m1" (.ok snapPreparing) .missing "m2" 0 "T").1 "m1"
        (.ok snapPreparing) .ok "m3" 60000 "T2" =
      ((runCycle worldLive "m1" (.ok snapPreparing) .missing "m2" 0 "T").1, noOut)) := by
  refine ⟨?_, ?_, ?_, ?_, ?_⟩ <;> decide

/-- C6 counterexample: `startJob` registers the recurring timer only after
running the immediate first cycle.  If that first cycle already terminates
the job (here: the first snapshot is delivered), the terminate tears down
the row, page, and state — and then `startJob` still installs the timer.
The resulting state has an active timer for "m1" with no page, no runtime
state, and no store row, violating the claimed invariant. -/
theorem c6_stale_timer_after_start_terminate :
    (startJob ⟨[], [], [], []⟩ "m1" "c" "u" none none (.ok snapDelivered) .ok "mX" 0 "T").1 =
      ⟨[], [("m1", "m1")], [], []⟩ := by decide

/-- Helper for C6: a start whose immediate first cycle does not terminate
creates the row, the page entry, the state entry, and the timer together. -/
theorem startJob_creates (w : World) (newMsgId channel url rid : String)
    (assignee requester : Option String) (snap : Snapshot) (now : Int) (ts : String)
    (hfresh : rowsGet w.rows newMsgId = none)
    (hnd : deliveredNowOf none snap = false) :
    mapLookup (startJob w newMsgId channel url assignee requester (.ok snap) .ok rid now
      ts).1.timers newMsgId = some newMsgId ∧
    (mapLookup (startJob w newMsgId channel url assignee requester (.ok snap) .ok rid now
      ts).1.pages newMsgId).isSome = true ∧
    (mapLookup (startJob w newMsgId channel url assignee requester (.ok snap) .ok rid now
      ts).1.states newMsgId).isSome = true ∧
    (rowsGet (startJob w newMsgId channel url assignee requester (.ok snap) .ok rid now
      ts).1.rows newMsgId).isSome = true := by
  have hrow1 :
      rowsGet
        (w.rows ++ [(⟨url, channel, newMsgId, assignee, requester, none, none, none, none⟩ : JobRow)]) newMsgId =
        some (⟨url, channel, newMsgId, assignee, requester, none, none, none, none⟩ : JobRow) := by
    unfold rowsGet at hfresh ⊢
    rw [List.find?_append, hfresh]
    simp
  have hpage1 :
      (mapLookup (mapSet w.pages newMsgId true) newMsgId).isSome = true := by
    rw [mapLookup_set_self]; rfl
  have hst :
      cycleSt0
        { w with
            rows := w.rows ++ [(⟨url, channel, newMsgId, assignee, requester, none, none, none, none⟩ : JobRow)]
            pages := mapSet w.pages newMsgId true
            states := mapSet w.states newMsgId ⟨assignee, none, none⟩ } newMsgId =
        ⟨assignee, none, none⟩ := by
    unfold cycleSt0
    rw [mapLookup_set_self]
    rfl
  have spec :=
    runCycle_ok_spec
      { w with
          rows := w.rows ++ [(⟨url, channel, newMsgId, assignee, requester, none, none, none, none⟩ : JobRow)]
          pages := mapSet w.pages newMsgId true
          states := mapSet w.states newMsgId ⟨assignee, none, none⟩ }
      newMsgId rid
      { url := url, channel_id := channel, message_id := newMsgId,
        assignee_user_id := assignee, requester_user_id := requester,
        static_name := none, last_phase := none, last_hash := none,
        last_error_at := none }
      snap now ts hrow1 hpage1
  have hdelF :
      deliveredNowOf
        (cycleSt0
          { w with
              rows := w.rows ++ [(⟨url, channel, newMsgId, assignee, requester, none, none, none, none⟩ : JobRow)]
              pages := mapSet w.pages newMsgId true
              states := mapSet w.states newMsgId ⟨assignee, none, none⟩ } newMsgId).lastPhase
        snap = false := by
    rw [hst]
    exact hnd
  have hlive := spec.2.2 hdelF
  unfold startJob
  refine ⟨mapLookup_set_self _ _ _, ?_, ?_, ?_⟩
  · rw [hlive.2.1]
    exact hpage1
  · rw [hlive.2.2.1]
    rfl
  · rcases hlive.2.2.2 with hkeep | hwrite
    · rw [hkeep.1]; rfl
    · rw [hwrite]; rfl

/-- C6 (amended): the runtime/store coupling holds except for the stale
timer exhibited by the counterexample.  (i) A start whose immediate first
cycle does not terminate creates the store row, page entry, state entry,
and timer together; (ii) a delivered terminate on a live job (message still
editable) destroys all four together; (iii) a login-required terminate does
the same; (iv) a timer firing for a job id with no store row — the stale
timer the counterexample leaves behind — removes the timer entry keyed by
that id and changes nothing else, so the job is never revived. -/
theorem c6_coupled_lifecycle
    (w : World) (newMsgId channel url rid : String)
    (assignee requester : Option String) (snap : Snapshot)
    (mid newMid : String) (job : JobRow)
    (w2 : World) (mid2 newMid2 : String) (fetch : FetchResult) (edit : EditResult)
    (now : Int) (ts : String)
    (hfresh : rowsGet w.rows newMsgId = none)
    (hnd : deliveredNowOf none snap = false)
    (hrow : rowsGet w.rows mid = some job)
    (hpage : (mapLookup w.pages mid).isSome = true)
    (hstale : rowsGet w2.rows mid2 = none) :
    (mapLookup (startJob w newMsgId channel url assignee requester (.ok snap) .ok rid now
        ts).1.timers newMsgId = some newMsgId ∧
      (mapLookup (startJob w newMsgId channel url assignee requester (.ok snap) .ok rid now
        ts).1.pages newMsgId).isSome = true ∧
      (mapLookup (startJob w newMsgId channel url assignee requester (.ok snap) .ok rid now
        ts).1.states newMsgId).isSome = true ∧
      (rowsGet (startJob w newMsgId channel url assignee requester (.ok snap) .ok rid now
        ts).1.rows newMsgId).isSome = true) ∧
    (deliveredNowOf (cycleSt0 w mid).lastPhase snap = true →
      rowsGet (runCycle w mid (.ok snap) .ok newMid now ts).1.rows mid = none ∧
      mapLookup (runCycle w mid (.ok snap) .ok newMid now ts).1.timers mid = none ∧
      mapLookup (runCycle w mid (.ok snap) .ok newMid now ts).1.pages mid = none ∧
      mapLookup (runCycle w mid (.ok snap) .ok newMid now ts).1.states mid = none) ∧
    (rowsGet (runCycle w mid .login .ok newMid now ts).1.rows mid = none ∧
      mapLookup (runCycle w mid .login .ok newMid now ts).1.timers mid = none ∧
      mapLookup (runCycle w mid .login .ok newMid now ts).1.pages mid = none ∧
      mapLookup (runCycle w mid .login .ok newMid now ts).1.states mid = none) ∧
    (runCycle w2 mid2 fetch edit newMid2 now ts =
      ({ w2 with timers := mapErase w2.timers mid2 }, noOut)) := by
  obtain ⟨b, hb⟩ := Option.isSome_iff_exists.mp hpage
  refine
    ⟨startJob_creates w newMsgId channel url rid assignee requester snap now ts hfresh hnd,
      (runCycle_ok_spec w mid newMid job snap now ts hrow hpage).2.1, ?_, ?_⟩
  · simp [runCycle, hrow, hb, editOrRepost, mapLookup_erase_self, rowsGet_delete_self]
  · simp [runCycle, hstale]

/-- C6 witness: starting a fresh job "n1" in a world that already tracks
"m1" installs the "n1" timer (together with the other three pieces). -/
theorem c6_coupled_lifecycle_witness :
    mapLookup (startJob worldLive "n1" "c" "u" none none (.ok snapPreparing) .ok "rX" 0
      "T").1.timers "n1" = some "n1" := by
  have h :=
    c6_coupled_lifecycle worldLive "n1" "c" "u" "rX" none none snapPreparing
      "m1" "m2" rowM1 worldLive "zz" "m3" (.ok snapPreparing) .ok 0 "T"
      (by decide) (by decide) (by decide) (by decide) (by decide)
  exact h.1.1

/- ───────────────── lemmas for extraction soundness (C4) ───────────────── -/

mutual
theorem findElems_mem_trans : ∀ (doc : Node), ∀ e ∈ elemsOf doc, ∀ x ∈ findElems e,
    x ∈ elemsOf doc
  | .text _, e, he, x, hx => absurd he (by simp [elemsOf])
  | .elem t i cls cs, e, he, x, hx => by
    simp only [elemsOf, List.mem_cons] at he
    rcases he with rfl | he
    · simp only [findElems] at hx
      exact List.mem_cons_of_mem _ hx
    · exact List.mem_cons_of_mem _ (findElemsNL_mem_trans cs e he x hx)
theorem findElemsNL_mem_trans : ∀ (l : NodeList), ∀ e ∈ elemsOfNL l, ∀ x ∈ findElems e,
    x ∈ elemsOfNL l
  | .nil, e, he, x, hx => absurd he (by simp [elemsOfNL])
  | .cons n ns, e, he, x, hx => by
    simp only [elemsOfNL, List.mem_append] at he ⊢
    rcases he with he | he
    · exact Or.inl (findElems_mem_trans n e he x hx)
    · exact Or.inr (findElemsNL_mem_trans ns e he x hx)
end

theorem firstByTestid_mem {doc : Node} {tid : String} {e : Node}
    (h : firstByTestid doc tid = some e) : e ∈ elemsOf doc :=
  List.mem_of_find?_eq_some h

theorem mem_elementTexts {doc : Node} {e : Node} {t : String}
    (he : e ∈ elemsOf doc) (ht : extractText e = some t) : t ∈ elementTexts doc :=
  List.mem_filterMap.mpr ⟨e, he, ht⟩

/-- Texts of `find('div')` elements of a member element are element texts of
the document. -/
theorem divsOf_texts_sub {doc c : Node} {t : String}
    (hc : c ∈ elemsOf doc) (ht : t ∈ (divsOf c).filterMap extractText) :
    t ∈ elementTexts doc := by
  rcases List.mem_filterMap.mp ht with ⟨d, hd, hdt⟩
  have hd' : d ∈ findElems c := List.mem_of_mem_filter hd
  exact mem_elementTexts (findElems_mem_trans doc c hc d hd') hdt

/-- Same for leaf divs. -/
theorem leafDivs_texts_sub {doc c : Node} {t : String}
    (hc : c ∈ elemsOf doc) (ht : t ∈ (leafDivs c).filterMap extractText) :
    t ∈ elementTexts doc := by
  rcases List.mem_filterMap.mp ht with ⟨d, hd, hdt⟩
  have hd' : d ∈ findElems c := List.mem_of_mem_filter hd
  exact mem_elementTexts (findElems_mem_trans doc c hc d hd') hdt

theorem typeScan_sub : ∀ (cs : List Char) (v : List Char), typeScan cs = some v →
    v <:+: cs
  | [], v, h => by simp [typeScan] at h
  | c :: rest, v, h => by
    rw [typeScan] at h
    cases hm : typeLenAt (c :: rest) with
    | some n =>
      rw [hm] at h
      cases h
      exact (List.take_prefix _ _).isInfix
    | none =>
      rw [hm] at h
      exact (typeScan_sub rest v h).trans (List.suffix_cons c rest).isInfix

theorem addrScan_sub : ∀ (cs : List Char) (v : List Char), addrScan cs = some v →
    v <:+: cs
  | [], v, h => by simp [addrScan] at h
  | c :: rest, v, h => by
    rw [addrScan] at h
    cases hm : addrLenAt (c :: rest) with
    | some n =>
      rw [hm] at h
      cases h
      exact (List.take_prefix _ _).isInfix
    | none =>
      rw [hm] at h
      exact (addrScan_sub rest v h).trans (List.suffix_cons c rest).isInfix

theorem captureSearch_shape : ∀ (ds : List Char) (acc v : List Char),
    captureSearch acc ds = some v → ∃ pre, v = acc.reverse ++ pre ∧ pre <+: ds
  | [], acc, v, h => by simp [captureSearch] at h
  | c :: rest, acc, v, h => by
    rw [captureSearch] at h
    by_cases hs : nameSuffixOk (c :: rest)
    · rw [if_pos hs] at h
      cases h
      exact ⟨[], by simp, List.nil_prefix⟩
    · rw [if_neg hs] at h
      by_cases hn : (c = '\n' || c = '\r') = true
      · rw [if_pos hn] at h; cases h
      · rw [if_neg hn] at h
        rcases captureSearch_shape rest (c :: acc) v h with ⟨pre, hv, hpre⟩
        rcases hpre with ⟨tl, htl⟩
        exact ⟨c :: pre, by simpa using hv, ⟨tl, by simp [htl]⟩⟩

theorem nameAfterWs_front {ds v : List Char} (h : nameAfterWs ds = some v) : v <+: ds := by
  cases ds with
  | nil => simp [nameAfterWs] at h
  | cons c rest =>
    rw [nameAfterWs] at h
    by_cases hn : (c = '\n' || c = '\r') = true
    · rw [if_pos hn] at h; cases h
    · rw [if_neg hn] at h
      rcases captureSearch_shape rest [c] v h with ⟨pre, hv, hpre⟩
      rw [hv]
      rcases hpre with ⟨tl, htl⟩
      exact ⟨tl, by simp [htl]⟩

theorem nameTryWs_sub : ∀ (w : Nat) (r v : List Char), nameTryWs w r = some v →
    v <:+: r
  | 0, r, v, h => by simp [nameTryWs] at h
  | w + 1, r, v, h => by
    rw [nameTryWs] at h
    cases hm : nameAfterWs (r.drop (w + 1)) with
    | some u =>
      rw [hm] at h
      cases h
      exact (nameAfterWs_front hm).isInfix.trans (List.drop_suffix _ _).isInfix
    | none =>
      rw [hm] at h
      exact nameTryWs_sub w r v h

theorem nameAtPos_sub {cs v : List Char} (h : nameAtPos cs = some v) : v <:+: cs := by
  rcases List.exists_of_findSome?_eq_some h with ⟨p, hp, hf⟩
  by_cases hpre : prefixAtCI p.data cs = true
  · rw [if_pos hpre] at hf
    exact (nameTryWs_sub _ _ _ hf).trans (List.drop_suffix _ _).isInfix
  · rw [if_neg hpre] at hf
    cases hf

theorem nameScan_sub : ∀ (cs v : List Char), nameScan cs = some v → v <:+: cs
  | [], v, h => by simp [nameScan] at h
  | c :: rest, v, h => by
    rw [nameScan] at h
    cases hm : nameAtPos (c :: rest) with
    | some u =>
      rw [hm] at h
      cases h
      exact nameAtPos_sub hm
    | none =>
      rw [hm] at h
      exact (nameScan_sub rest v h).trans (List.suffix_cons c rest).isInfix

theorem boundedFind_mem : ∀ (pw : Bool) (cs : List Char) {ns : List String} {n : String},
    boundedFind ns pw cs = some n → n ∈ ns
  | pw, [], ns, n, h => by simp [boundedFind] at h
  | pw, c :: rest, ns, n, h => by
    rw [boundedFind] at h
    cases hm : ns.find? (fun m =>
        !pw && prefixAtCI m.data (c :: rest) && afterBoundaryOk m.data (c :: rest)) with
    | some u =>
      rw [hm] at h
      cases h
      exact List.mem_of_find?_eq_some hm
    | none =>
      rw [hm] at h
      exact boundedFind_mem _ rest h

theorem scanTypeFold_fst (texts : List String) :
    ∀ (st : Option String × Option String) (a : String),
      (List.foldl
        (fun st t =>
          if st.1.isNone && typeTest t then (typeFind t, st.2)
          else if st.2.isNone && optionTest t then (st.1, optionFind t)
          else st) st texts).1 = some a →
      st.1 = some a ∨ ∃ t ∈ texts, typeFind t = some a := by
  induction texts with
  | nil => intro st a h; exact Or.inl h
  | cons x xs ih =>
    intro st a h
    rw [List.foldl_cons] at h
    rcases ih _ a h with hst | ⟨t, ht, hft⟩
    · by_cases h1 : (st.1.isNone && typeTest x) = true
      · rw [if_pos h1] at hst
        exact Or.inr ⟨x, List.mem_cons_self x xs, hst⟩
      · rw [if_neg h1] at hst
        by_cases h2 : (st.2.isNone && optionTest x) = true
        · rw [if_pos h2] at hst
          exact Or.inl hst
        · rw [if_neg h2] at hst
          exact Or.inl hst
    · exact Or.inr ⟨t, List.mem_cons_of_mem x ht, hft⟩

theorem scanTypeFold_snd (texts : List String) :
    ∀ (st : Option String × Option String) (b : String),
      (List.foldl
        (fun st t =>
          if st.1.isNone && typeTest t then (typeFind t, st.2)
          else if st.2.isNone && optionTest t then (st.1, optionFind t)
          else st) st texts).2 = some b →
      st.2 = some b ∨ ∃ t ∈ texts, optionFind t = some b := by
  induction texts with
  | nil => intro st b h; exact Or.inl h
  | cons x xs ih =>
    intro st b h
    rw [List.foldl_cons] at h
    rcases ih _ b h with hst | ⟨t, ht, hft⟩
    · by_cases h1 : (st.1.isNone && typeTest x) = true
      · rw [if_pos h1] at hst
        exact Or.inl hst
      · rw [if_neg h1] at hst
        by_cases h2 : (st.2.isNone && optionTest x) = true
        · rw [if_pos h2] at hst
          exact Or.inr ⟨x, List.mem_cons_self x xs, hst⟩
        · rw [if_neg h2] at hst
          exact Or.inl hst
    · exact Or.inr ⟨t, List.mem_cons_of_mem x ht, hft⟩

theorem scanType_fst_char {doc : Node} {tid : String} {a : String}
    (h : (scanType doc tid).1 = some a) :
    ∃ c, firstByTestid doc tid = some c ∧
      ∃ t ∈ (divsOf c).filterMap extractText, typeFind t = some a := by
  unfold scanType at h
  cases hc : firstByTestid doc tid with
  | none => rw [hc] at h; cases h
  | some c =>
    rw [hc] at h
    unfold scanTypeDivs at h
    rcases scanTypeFold_fst _ _ _ h with hst | hex
    · cases hst
    · exact ⟨c, rfl, hex⟩

theorem scanType_snd_char {doc : Node} {tid : String} {b : String}
    (h : (scanType doc tid).2 = some b) :
    ∃ c, firstByTestid doc tid = some c ∧
      ∃ t ∈ (divsOf c).filterMap extractText, optionFind t = some b := by
  unfold scanType at h
  cases hc : firstByTestid doc tid with
  | none => rw [hc] at h; cases h
  | some c =>
    rw [hc] at h
    unfold scanTypeDivs at h
    rcases scanTypeFold_snd _ _ _ h with hst | hex
    · cases hst
    · exact ⟨c, rfl, hex⟩

theorem typeFind_sub {t a : String} (h : typeFind t = some a) : a.data <:+: t.data := by
  unfold typeFind at h
  cases hs : typeScan t.data with
  | none => rw [hs] at h; cases h
  | some v =>
    rw [hs] at h
    cases h
    exact typeScan_sub _ _ hs

theorem optionFind_memCap {t b : String} (h : optionFind t = some b) :
    b ∈ optionKeywords.map capFirst := by
  unfold optionFind at h
  cases hs : boundedFind optionKeywords false t.data with
  | none => rw [hs] at h; cases h
  | some k =>
    rw [hs] at h
    cases h
    exact List.mem_map_of_mem capFirst (boundedFind_mem _ _ hs)

theorem addrFind_sub {t a : String} (h : addrFind t = some a) : a.data <:+: t.data := by
  unfold addrFind at h
  cases hs : addrScan t.data with
  | none => rw [hs] at h; cases h
  | some v =>
    rw [hs] at h
    cases h
    exact addrScan_sub _ _ hs

theorem nameCapture_sub {s v : String} (h : nameCapture s = some v) :
    v.data <:+: s.data := by
  unfold nameCapture at h
  cases hs : nameScan s.data with
  | none => rw [hs] at h; cases h
  | some u =>
    rw [hs] at h
    cases h
    exact nameScan_sub _ _ hs

theorem orElse_some {α : Type} {x y : Option α} {a : α} (h : (x <|> y) = some a) :
    x = some a ∨ y = some a := by
  cases x <;> simp_all

/-- With no status widget, the headline and ETA are absent and the status
text is the fabricated placeholder. -/
theorem scrape_no_widget {doc : Node}
    (h : firstByTestid doc "active-order-sticky-eta" = none) :
    (scrapeFromHTML doc).statusLine = none ∧ (scrapeFromHTML doc).etaLine = none ∧
    (scrapeFromHTML doc).statusText = "Unknown status" := by
  refine ⟨?_, ?_, ?_⟩ <;> simp [scrapeFromHTML, h]

theorem scrape_statusLine_mem {doc : Node} {s : String}
    (h : (scrapeFromHTML doc).statusLine = some s) : s ∈ elementTexts doc := by
  cases hst : firstByTestid doc "active-order-sticky-eta" with
  | none => rw [(scrape_no_widget hst).1] at h; cases h
  | some sticky =>
    have hline : ((divsOf sticky).filterMap extractText).head? = some s := by
      simpa [scrapeFromHTML, hst] using h
    exact divsOf_texts_sub (firstByTestid_mem hst) (List.mem_of_mem_head? hline)

theorem scrape_etaLine_mem {doc : Node} {s : String}
    (h : (scrapeFromHTML doc).etaLine = some s) : s ∈ elementTexts doc := by
  cases hst : firstByTestid doc "active-order-sticky-eta" with
  | none => rw [(scrape_no_widget hst).2.1] at h; cases h
  | some sticky =>
    have hline :
        ((divsOf sticky).filterMap extractText).find? (fun t => strContainsCI t "estimated") =
          some s := by
      simpa [scrapeFromHTML, hst] using h
    exact divsOf_texts_sub (firstByTestid_mem hst) (List.mem_of_find?_eq_some hline)

theorem scrape_store_char {doc : Node} {s : String}
    (h : (scrapeFromHTML doc).store = some s) :
    ∃ t ∈ elementTexts doc, prefixAt "From ".data t.data = true ∧ t.data.length ≤ 80 ∧
      s = trimStr ⟨t.data.drop 5⟩ := by
  have h' :
      (((((elemsOf doc).filter (fun e =>
          e.tagOf = "div" || e.tagOf = "span" || e.tagOf = "p")).filterMap
            extractText).filter
          (fun t => prefixAt "From ".data t.data && t.data.length ≤ 80)).head?).map
        (fun t => trimStr ⟨t.data.drop 5⟩) = some s := h
  rcases Option.map_eq_some'.mp h' with ⟨t, hhead, hs⟩
  have hmem := List.mem_of_mem_head? hhead
  have hprop := List.of_mem_filter hmem
  have hmem' := List.mem_of_mem_filter hmem
  rcases List.mem_filterMap.mp hmem' with ⟨e, he, het⟩
  refine ⟨t, mem_elementTexts (List.mem_of_mem_filter he) het, ?_, ?_, hs.symm⟩
  · exact (Bool.and_eq_true _ _ |>.mp hprop).1
  · simpa using (Bool.and_eq_true _ _ |>.mp hprop).2

theorem scrape_name_sub {doc : Node} {s : String}
    (h : (scrapeFromHTML doc).name = some s) :
    s.data <:+: (jsOr (scrapeFromHTML doc).statusLine (scrapeFromHTML doc).statusText).data :=
  nameCapture_sub h

theorem scrape_address_char {doc : Node} {s : String}
    (h : (scrapeFromHTML doc).address = some s) :
    ∃ t ∈ elementTexts doc, s.data <:+: t.data := by
  cases hc : firstByTestid doc "delivery-text-container-0" with
  | none => simp [scrapeFromHTML, hc] at h
  | some c0 =>
    have h' :
        (match ((leafDivs c0).filterMap extractText).find? addrTest with
          | some hit => some hit
          | none => (extractText c0).bind addrFind) = some s := by
      simpa [scrapeFromHTML, hc] using h
    cases hf : ((leafDivs c0).filterMap extractText).find? addrTest with
    | some hit =>
      rw [hf] at h'
      cases h'
      exact ⟨s, leafDivs_texts_sub (firstByTestid_mem hc) (List.mem_of_find?_eq_some hf),
        List.infix_refl _⟩
    | none =>
      rw [hf] at h'
      rcases Option.bind_eq_some.mp h' with ⟨raw, hraw, hfind⟩
      exact ⟨raw, mem_elementTexts (firstByTestid_mem hc) hraw, addrFind_sub hfind⟩

theorem scrape_unit_char {doc : Node} {s : String}
    (h : (scrapeFromHTML doc).unit = some s) :
    (∃ t ∈ elementTexts doc, unitFromRaw t = some s) ∨ s ∈ elementTexts doc := by
  cases hc : firstByTestid doc "delivery-text-container-1" with
  | none => simp [scrapeFromHTML, hc] at h
  | some c1 =>
    have h' :
        (match (extractText c1).bind unitFromRaw with
          | some u => some u
          | none => ((leafDivs c1).filterMap extractText).find? unitHintTest) = some s := by
      simpa [scrapeFromHTML, hc] using h
    cases hb : (extractText c1).bind unitFromRaw with
    | some u =>
      rw [hb] at h'
      cases h'
      rcases Option.bind_eq_some.mp hb with ⟨raw, hraw, hu⟩
      exact Or.inl ⟨raw, mem_elementTexts (firstByTestid_mem hc) hraw, hu⟩
    | none =>
      rw [hb] at h'
      exact Or.inr
        (leafDivs_texts_sub (firstByTestid_mem hc) (List.mem_of_find?_eq_some h'))

theorem scrape_note_mem {doc : Node} {s : String}
    (h : (scrapeFromHTML doc).delivery_note_typed = some s) : s ∈ elementTexts doc := by
  cases hc : firstByTestid doc "delivery-text-container-1" with
  | none => simp [scrapeFromHTML, hc] at h
  | some c1 =>
    have h' :
        (((leafDivs c1).filterMap extractText).reverse).find? (fun t =>
          !labelTest t && !typeTest t && !optionTest t && !addrTest t && !unitHintTest t) =
          some s := by
      simpa [scrapeFromHTML, hc] using h
    have hmem := List.mem_of_find?_eq_some h'
    rw [List.mem_reverse] at hmem
    exact leafDivs_texts_sub (firstByTestid_mem hc) hmem

/-- A `typeFind` result from a container scan is a slice of some element
text of the document. -/
theorem typeLbl_sound {doc : Node} {tid : String} {a : String}
    (h : (scanType doc tid).1 = some a) : ∃ t ∈ elementTexts doc, a.data <:+: t.data := by
  rcases scanType_fst_char h with ⟨c, hc, t, ht, hft⟩
  exact ⟨t, divsOf_texts_sub (firstByTestid_mem hc) ht, typeFind_sub hft⟩

theorem optLbl_sound {doc : Node} {tid : String} {b : String}
    (h : (scanType doc tid).2 = some b) : b ∈ optionKeywords.map capFirst := by
  rcases scanType_snd_char h with ⟨c, hc, t, ht, hft⟩
  exact optionFind_memCap hft

theorem scrape_dtype_char {doc : Node} {s : String}
    (h : (scrapeFromHTML doc).delivery_type = some s) :
    (∃ t ∈ elementTexts doc, s.data <:+: t.data) ∨
    s ∈ optionKeywords.map capFirst ∨
    (∃ a b, (∃ t ∈ elementTexts doc, a.data <:+: t.data) ∧
      b ∈ optionKeywords.map capFirst ∧ s = a ++ " • " ++ b) ∨
    s.data <:+: (textAllOf doc).data := by
  have h' :
      (if (String.intercalate " • "
            ([(scanType doc "delivery-text-container-1").1 <|>
                (scanType doc "delivery-text-container-2").1,
              (scanType doc "delivery-text-container-1").2 <|>
                (scanType doc "delivery-text-container-2").2].filterMap id)).isEmpty then
        typeFind (textAllOf doc)
      else
        some (String.intercalate " • "
          ([(scanType doc "delivery-text-container-1").1 <|>
              (scanType doc "delivery-text-container-2").1,
            (scanType doc "delivery-text-container-1").2 <|>
              (scanType doc "delivery-text-container-2").2].filterMap id))) = some s := h
  cases hty : ((scanType doc "delivery-text-container-1").1 <|>
      (scanType doc "delivery-text-container-2").1) with
  | none =>
    cases hop : ((scanType doc "delivery-text-container-1").2 <|>
        (scanType doc "delivery-text-container-2").2) with
    | none =>
      rw [hty, hop] at h'
      have h'' : typeFind (textAllOf doc) = some s := by simpa using h'
      exact Or.inr (Or.inr (Or.inr (typeFind_sub h'')))
    | some b =>
      rw [hty, hop] at h'
      by_cases hb : (String.intercalate " • " ([none, some b].filterMap id)).isEmpty
      · rw [if_pos hb] at h'
        exact Or.inr (Or.inr (Or.inr (typeFind_sub h')))
      · rw [if_neg hb] at h'
        have hsb : s = b := by
          have : String.intercalate " • " ([none, some b].filterMap id) = b := rfl
          rw [this] at h'
          exact (Option.some.injEq _ _ ▸ h' : b = s).symm
        subst hsb
        rcases orElse_some hop with h2 | h2
        · exact Or.inr (Or.inl (optLbl_sound h2))
        · exact Or.inr (Or.inl (optLbl_sound h2))
  | some a =>
    cases hop : ((scanType doc "delivery-text-container-1").2 <|>
        (scanType doc "delivery-text-container-2").2) with
    | none =>
      rw [hty, hop] at h'
      by_cases ha : (String.intercalate " • " ([some a, none].filterMap id)).isEmpty
      · rw [if_pos ha] at h'
        exact Or.inr (Or.inr (Or.inr (typeFind_sub h')))
      · rw [if_neg ha] at h'
        have hsa : s = a := by
          have : String.intercalate " • " ([some a, none].filterMap id) = a := rfl
          rw [this] at h'
          exact (Option.some.injEq _ _ ▸ h' : a = s).symm
        subst hsa
        rcases orElse_some hty with h2 | h2
        · exact Or.inl (typeLbl_sound h2)
        · exact Or.inl (typeLbl_sound h2)
    | some b =>
      rw [hty, hop] at h'
      by_cases hab : (String.intercalate " • " ([some a, some b].filterMap id)).isEmpty
      · rw [if_pos hab] at h'
        exact Or.inr (Or.inr (Or.inr (typeFind_sub h')))
      · rw [if_neg hab] at h'
        have hsab : s = a ++ " • " ++ b := by
          have : String.intercalate " • " ([some a, some b].filterMap id) =
              a ++ " • " ++ b := rfl
          rw [this] at h'
          exact (Option.some.injEq _ _ ▸ h' : a ++ " • " ++ b = s).symm
        refine Or.inr (Or.inr (Or.inl ⟨a, b, ?_, ?_, hsab⟩))
        · rcases orElse_some hty with h2 | h2
          · exact typeLbl_sound h2
          · exact typeLbl_sound h2
        · rcases orElse_some hop with h2 | h2
          · exact optLbl_sound h2
          · exact optLbl_sound h2

theorem scrape_cart_char {doc : Node} {l : String}
    (h : l ∈ (scrapeFromHTML doc).cart) :
    ∃ nm det, (nm = none ∨ ∃ t ∈ elementTexts doc, nm = some t) ∧
      (det = "" ∨ det ∈ elementTexts doc) ∧ cartLine nm det = some l := by
  have h1 : l ∈ ((elemsOf doc).filter (fun e =>
      match e.testidOf with
      | some tid => strContains tid "order-summary-card-item"
      | none => false)).filterMap (fun item =>
        cartLine
          (extractText
            (((findElems item).find? (fun d =>
              d.tagOf = "div" && ["bo", "bp", "bq", "br"].all (d.classesOf.contains ·))).getD
              item))
          ((((findElems item).find? (fun d =>
              d.tagOf = "div" &&
              (["bo", "cn", "bq", "dq", "g6"].all (d.classesOf.contains ·) ||
               ["bo", "cn", "bq", "dq", "g7"].all (d.classesOf.contains ·)))).bind
            extractText).getD "")) :=
    List.take_subset _ _ h
  rcases List.mem_filterMap.mp h1 with ⟨item, hitem, hline⟩
  have hitem' : item ∈ elemsOf doc := List.mem_of_mem_filter hitem
  refine ⟨_, _, ?_, ?_, hline⟩
  · cases hnm : extractText (((findElems item).find? (fun d =>
        d.tagOf = "div" && ["bo", "bp", "bq", "br"].all (d.classesOf.contains ·))).getD
        item) with
    | none => exact Or.inl rfl
    | some t =>
      refine Or.inr ⟨t, ?_, rfl⟩
      cases hnd : (findElems item).find? (fun d =>
          d.tagOf = "div" && ["bo", "bp", "bq", "br"].all (d.classesOf.contains ·)) with
      | some d =>
        rw [hnd] at hnm
        exact mem_elementTexts
          (findElems_mem_trans doc item hitem' d (List.mem_of_find?_eq_some hnd)) hnm
      | none =>
        rw [hnd] at hnm
        exact mem_elementTexts hitem' hnm
  · cases hdt : ((findElems item).find? (fun d =>
        d.tagOf = "div" &&
        (["bo", "cn", "bq", "dq", "g6"].all (d.classesOf.contains ·) ||
         ["bo", "cn", "bq", "dq", "g7"].all (d.classesOf.contains ·)))).bind extractText with
    | none => exact Or.inl rfl
    | some t =>
      rcases Option.bind_eq_some.mp hdt with ⟨d, hd, ht⟩
      exact Or.inr (mem_elementTexts
        (findElems_mem_trans doc item hitem' d (List.mem_of_find?_eq_some hd)) ht)

theorem scrape_cart_len (doc : Node) : (scrapeFromHTML doc).cart.length ≤ 12 :=
  List.length_take_le _ _

/-- C4 counterexample: the claim says every field of the snapshot is either
text actually extracted from the markup or absent — never fabricated — and
that an absent status widget yields an absent status field.  On an empty
page the returned snapshot's `statusText` field is the string
`"Unknown status"`, which is neither absent nor drawn from the (empty)
page text: it is the fabricated initialiser `'Unknown status'`. -/
theorem c4_statusText_fabricated :
    (scrapeFromHTML docEmpty).statusText = "Unknown status" ∧
    textAllOf docEmpty = "" ∧
    strContains (textAllOf docEmpty) "Unknown status" = false ∧
    ¬ ("Unknown status".data <:+: (textAllOf docEmpty).data) := by
  refine ⟨?_, ?_, ?_, ?_⟩ <;> decide

/-- C4 (amended): `extract` is a total function (this definition), and every
field of the snapshot other than `statusText` is either absent or derived
from text genuinely present in the markup: the headline and ETA are element
texts; the store is a `From `-prefixed element text of at most 80
characters with the prefix stripped; the customer name is a slice of the
status text; the address is a slice of an element text; the unit comes from
the unit regex over an element text or is itself an element text; the
delivery type is an element-text slice, a canonical option keyword, their
` • ` join, or a slice of the whole page text; the note is an element text;
every cart line renders `cartLine` over optional element texts; and the
cart is capped at 12 entries.  `statusText` alone carries the fabricated
`"Unknown status"` placeholder whenever the status widget is absent — in
which case the headline and ETA fields are absent, as the claim demands. -/
theorem c4_fields_extracted_or_absent (doc : Node) :
    (firstByTestid doc "active-order-sticky-eta" = none →
      (scrapeFromHTML doc).statusLine = none ∧ (scrapeFromHTML doc).etaLine = none ∧
      (scrapeFromHTML doc).statusText = "Unknown status") ∧
    (∀ s, (scrapeFromHTML doc).statusLine = some s → s ∈ elementTexts doc) ∧
    (∀ s, (scrapeFromHTML doc).etaLine = some s → s ∈ elementTexts doc) ∧
    (∀ s, (scrapeFromHTML doc).store = some s →
      ∃ t ∈ elementTexts doc, prefixAt "From ".data t.data = true ∧
        t.data.length ≤ 80 ∧ s = trimStr ⟨t.data.drop 5⟩) ∧
    (∀ s, (scrapeFromHTML doc).name = some s →
      s.data <:+:
        (jsOr (scrapeFromHTML doc).statusLine (scrapeFromHTML doc).statusText).data) ∧
    (∀ s, (scrapeFromHTML doc).address = some s →
      ∃ t ∈ elementTexts doc, s.data <:+: t.data) ∧
    (∀ s, (scrapeFromHTML doc).unit = some s →
      (∃ t ∈ elementTexts doc, unitFromRaw t = some s) ∨ s ∈ elementTexts doc) ∧
    (∀ s, (scrapeFromHTML doc).delivery_type = some s →
      (∃ t ∈ elementTexts doc, s.data <:+: t.data) ∨
      s ∈ optionKeywords.map capFirst ∨
      (∃ a b, (∃ t ∈ elementTexts doc, a.data <:+: t.data) ∧
        b ∈ optionKeywords.map capFirst ∧ s = a ++ " • " ++ b) ∨
      s.data <:+: (textAllOf doc).data) ∧
    (∀ s, (scrapeFromHTML doc).delivery_note_typed = some s → s ∈ elementTexts doc) ∧
    (∀ l ∈ (scrapeFromHTML doc).cart,
      ∃ nm det, (nm = none ∨ ∃ t ∈ elementTexts doc, nm = some t) ∧
        (det = "" ∨ det ∈ elementTexts doc) ∧ cartLine nm det = some l) ∧
    (scrapeFromHTML doc).cart.length ≤ 12 :=
  ⟨fun h => scrape_no_widget h,
   fun _ h => scrape_statusLine_mem h,
   fun _ h => scrape_etaLine_mem h,
   fun _ h => scrape_store_char h,
   fun _ h => scrape_name_sub h,
   fun _ h => scrape_address_char h,
   fun _ h => scrape_unit_char h,
   fun _ h => scrape_dtype_char h,
   fun _ h => scrape_note_mem h,
   fun _ h => scrape_cart_char h,
   scrape_cart_len doc⟩

/-- C4 witness: the amended theorem applied to the empty page (widget
absent) and to the rich page (every field present). -/
theorem c4_fields_extracted_or_absent_witness :
    ((scrapeFromHTML docEmpty).statusLine = none ∧ (scrapeFromHTML docEmpty).etaLine = none ∧
      (scrapeFromHTML docEmpty).statusText = "Unknown status") ∧
    "Preparing Alice's order" ∈ elementTexts docRich ∧
    "Estimated arrival 2:30 PM" ∈ elementTexts docRich ∧
    (∃ t ∈ elementTexts docRich, prefixAt "From ".data t.data = true ∧
      t.data.length ≤ 80 ∧ "Pizza Palace" = trimStr ⟨t.data.drop 5⟩) ∧
    "Alice".data <:+:
      (jsOr (scrapeFromHTML docRich).statusLine (scrapeFromHTML docRich).statusText).data ∧
    (∃ t ∈ elementTexts docRich,
      "742 Evergreen Terrace, Springfield, IL 62704, US".data <:+: t.data) ∧
    "ring the bell twice" ∈ elementTexts docRich ∧
    (∃ nm det, (nm = none ∨ ∃ t ∈ elementTexts docRich, nm = some t) ∧
      (det = "" ∨ det ∈ elementTexts docRich) ∧ cartLine nm det = some "Burger — x2") ∧
    (scrapeFromHTML docRich).cart.length ≤ 12 :=
  ⟨(c4_fields_extracted_or_absent docEmpty).1 rfl,
   (c4_fields_extracted_or_absent docRich).2.1 _ (by decide),
   (c4_fields_extracted_or_absent docRich).2.2.1 _ (by decide),
   (c4_fields_extracted_or_absent docRich).2.2.2.1 _ (by decide),
   (c4_fields_extracted_or_absent docRich).2.2.2.2.1 _ (by decide),
   (c4_fields_extracted_or_absent docRich).2.2.2.2.2.1 _ (by decide),
   (c4_fields_extracted_or_absent docRich).2.2.2.2.2.2.2.2.1 _ (by decide),
   (c4_fields_extracted_or_absent docRich).2.2.2.2.2.2.2.2.2.1 _ (by decide),
   (c4_fields_extracted_or_absent docRich).2.2.2.2.2.2.2.2.2.2⟩
